import Mathlib

/-!
Shallow embedding of the DRM mode-setting / buffer-object core of the
asterinas-drm repository: the typed object registry (`DrmModeConfig`), the
property store, GEM buffer objects, the per-open-file session state and the
ioctl dispatch layer of `kernel/src/device/drm/file.rs`.

Machine integers are modelled as `Nat` with explicit `% 2^32` where the
source's `u32` arithmetic (atomic fetch-and-increment, `as u32` casts) can
wrap.  Hash tables are modelled as association lists whose iteration order
stands for the table's (unspecified) iteration order.  User-space memory
writes are recorded as a trace of typed write events.
-/

namespace Drm

/-- Error codes: the subset of `Errno` values produced by the DRM core.
Spec error kinds map as: NotFound = ENOENT, Unsupported = EOPNOTSUPP,
Unimplemented = ENOSYS, NotSupportedHardware = ENXIO,
InvalidArgument = EINVAL, AddressFault = EFAULT. -/
inductive Errno where
  | EINVAL | ENOENT | ENOSYS | EOPNOTSUPP | EFAULT | ENXIOErr | ENOTTY | EACCES | EIOErr
  deriving DecidableEq, Repr

/-- `2^32` (written out), the modulus of the source's `u32` counters and
casts. -/
def U32M : Nat := 4294967296

/-- Driver feature bits, from `driver/mod.rs` (`DrmDriverFeatures`). -/
def FEATURE_GEM : Nat := 1
def FEATURE_MODESET : Nat := 2
def FEATURE_RENDER : Nat := 8
def FEATURE_ATOMIC : Nat := 16
def FEATURE_SYNCOBJ : Nat := 32
def FEATURE_SYNCOBJ_TIMELINE : Nat := 64
def FEATURE_CURSOR_HOTSPOT : Nat := 512

/-- `bitflags` `contains`: every bit of `wanted` is set in `flags`. -/
def featuresContain (flags wanted : Nat) : Bool :=
  (flags &&& wanted) == wanted

/-- Association-list insert with hashbrown `HashMap::insert` semantics:
replace the value if the key is present, otherwise append the entry. -/
def alInsert {α : Type} (k : Nat) (v : α) : List (Nat × α) → List (Nat × α)
  | [] => [(k, v)]
  | (k', v') :: rest =>
    if k' = k then (k, v) :: rest else (k', v') :: alInsert k v rest

/-- Association-list lookup (`HashMap::get`). -/
def alGet {α : Type} (k : Nat) : List (Nat × α) → Option α
  | [] => none
  | (k', v') :: rest => if k' = k then some v' else alGet k rest

/-- Association-list removal (`HashMap::remove`). -/
def alRemove {α : Type} (k : Nat) (l : List (Nat × α)) : List (Nat × α) :=
  l.filter (fun p => p.1 != k)

/-- Number of set bits among bits 0..31 (`u32::count_ones`). -/
def popCount32 (n : Nat) : Nat :=
  (List.range 32).countP (fun i => n.testBit i)

/-- `struct drm_mode_modeinfo` (`mode_config/mod.rs`); `name` is the
32-byte fixed array. -/
structure DrmModeModeInfo where
  clock : Nat
  hdisplay : Nat
  hsync_start : Nat
  hsync_end : Nat
  htotal : Nat
  hskew : Nat
  vdisplay : Nat
  vsync_start : Nat
  vsync_end : Nat
  vtotal : Nat
  vscan : Nat
  vrefresh : Nat
  flags : Nat
  type_ : Nat
  name : List Nat
  deriving DecidableEq, Repr

/-- `size_of::<DrmModeModeInfo>()`: 4 + 10*2 + 4 + 4 + 4 + 32 bytes. -/
def sizeofModeInfo : Nat := 68

/-- `str_to_u8_32`: UTF-8 bytes truncated to 32 and zero-padded. -/
def nameBytes (s : String) : List Nat :=
  let bs := (s.toUTF8.toList.map (fun b => b.toNat)).take 32
  bs ++ List.replicate (32 - bs.length) 0

/-- `PlaneType` (`plane/mod.rs`). -/
inductive PlaneType where
  | Overlay | Primary | Cursor
  deriving DecidableEq, Repr

/-- `EncoderType` (`encoder/mod.rs`). -/
inductive EncoderType where
  | None | DAC | TMDS | LVDS | TVDAC | VIRTUAL | DSI | DPMST | DPI
  deriving DecidableEq, Repr

/-- The `u32` discriminant of an `EncoderType`. -/
def EncoderType.val : EncoderType → Nat
  | .None => 0 | .DAC => 1 | .TMDS => 2 | .LVDS => 3 | .TVDAC => 4
  | .VIRTUAL => 5 | .DSI => 6 | .DPMST => 7 | .DPI => 8

/-- `ConnectorStatus` (`connector/mod.rs`). -/
inductive ConnectorStatus where
  | Connected | Disconnected | Unknownconnection
  deriving DecidableEq, Repr

/-- The `u32` discriminant of a `ConnectorStatus`. -/
def ConnectorStatus.val : ConnectorStatus → Nat
  | .Connected => 1 | .Disconnected => 2 | .Unknownconnection => 3

/-- Property id to 64-bit value map carried by every mode object. -/
abbrev Props : Type := List (Nat × Nat)

/-- A GEM storage backend (`DrmGemBackend` trait object), modelled by the
outcome of its fallible operations: `releaseErr = none` means `release()`
succeeds, `some e` means it fails with `e`; likewise for `read`. -/
structure DrmGemBackendM where
  releaseErr : Option Errno
  readErr : Option Errno
  readLen : Nat
  deriving DecidableEq, Repr

/-- `DrmGemObject` (`gem.rs`): size (u64), pitch (u32), shared backend. -/
structure DrmGemObject where
  size : Nat
  pitch : Nat
  backend : DrmGemBackendM
  deriving DecidableEq, Repr

/-- `DrmGemObject::release` delegates to the backend. -/
def DrmGemObject.release (g : DrmGemObject) : Option Errno :=
  g.backend.releaseErr

/-- `DrmPlane` (`plane/mod.rs`); the behavior hook `funcs` carries no
observable behavior in the source and is omitted. -/
structure DrmPlane where
  id : Nat
  type_ : PlaneType
  fb_id : Nat
  properties : Props
  deriving DecidableEq, Repr

/-- `DrmCrtc` (`crtc/mod.rs`). -/
structure DrmCrtc where
  id : Nat
  name : String
  index : Nat
  properties : Props
  gamma_size : Nat
  primary_plane : DrmPlane
  cursor_plane : Option DrmPlane
  enabled : Bool
  x : Nat
  y : Nat
  deriving DecidableEq, Repr

/-- `DrmCrtc::fb_id` is derived from the bound primary plane. -/
def DrmCrtc.fb_id (c : DrmCrtc) : Nat := c.primary_plane.fb_id

/-- `DrmEncoder` (`encoder/mod.rs`). -/
structure DrmEncoder where
  id : Nat
  type_ : EncoderType
  index : Nat
  crtc : Option Nat
  properties : Props
  possible_crtcs : Nat
  possible_clones : Nat
  deriving DecidableEq, Repr

/-- `DrmConnector` (`connector/mod.rs`); `type_` holds the u32 value of
`DrmModeConnType` (`Unknown = 0` in every creation path). -/
structure DrmConnector where
  id : Nat
  encoder : Option Nat
  modes : List DrmModeModeInfo
  properties : Props
  possible_encoders_id : List Nat
  possible_encoders_mask : Nat
  type_ : Nat
  type_id : Nat
  status : ConnectorStatus
  mm_width : Nat
  mm_height : Nat
  subpixel_order : Nat
  deriving DecidableEq, Repr

def DrmConnector.count_modes (c : DrmConnector) : Nat := c.modes.length % U32M
def DrmConnector.count_props (c : DrmConnector) : Nat := c.properties.length % U32M
def DrmConnector.count_encoders (c : DrmConnector) : Nat :=
  popCount32 c.possible_encoders_mask

/-- `DrmFramebuffer` (`framebuffer/mod.rs` as used by
`DrmModeConfig::create_framebuffer`). -/
structure DrmFramebuffer where
  id : Nat
  width : Nat
  height : Nat
  pitch : Nat
  bpp : Nat
  gem_obj : DrmGemObject
  properties : Props
  deriving DecidableEq, Repr

/-- `DrmFramebuffer::read` delegates to the buffer's backend. -/
def DrmFramebuffer.readErr (f : DrmFramebuffer) : Option Errno :=
  f.gem_obj.backend.readErr

/-- An entry of the unified polymorphic object table
(`Arc<dyn DrmModeObject>`). -/
inductive DrmModeObjectEnt where
  | plane (p : DrmPlane)
  | crtc (c : DrmCrtc)
  | encoder (e : DrmEncoder)
  | connector (c : DrmConnector)
  | framebuffer (f : DrmFramebuffer)
  deriving DecidableEq, Repr

/-- `DrmModeObject::properties`. -/
def DrmModeObjectEnt.properties : DrmModeObjectEnt → Props
  | .plane p => p.properties
  | .crtc c => c.properties
  | .encoder e => e.properties
  | .connector c => c.properties
  | .framebuffer f => f.properties

/-- `DrmModeObject::count_props` (`iter().count() as u32`). -/
def DrmModeObjectEnt.count_props (o : DrmModeObjectEnt) : Nat :=
  o.properties.length % U32M

/-- Property value kind (`property/mod.rs`, `PropertyKind`). -/
inductive PropertyKind where
  | Range (min max : Nat)
  | SignedRange (min max : Int)
  | Enum (entries : List (Nat × String))
  | Bitmask (entries : List (Nat × String))
  | Blob (id : Nat)
  | Object (objType : Nat)
  deriving DecidableEq, Repr

/-- Property flag bits (`PropertyFlags`). -/
def PROP_PENDING : Nat := 1
def PROP_RANGE : Nat := 2
def PROP_IMMUTABLE : Nat := 4
def PROP_ENUM : Nat := 8
def PROP_BLOB : Nat := 16
def PROP_BITMASK : Nat := 32

/-- `DrmProperty` (`property/mod.rs`): 32-byte name, flags, value kind. -/
structure DrmProperty where
  name : List Nat
  flags : Nat
  kind : PropertyKind
  deriving DecidableEq, Repr

/-- `DrmProperty::create_range`. -/
def DrmProperty.create_range (name : String) (flags min max : Nat) : DrmProperty :=
  ⟨nameBytes name, flags ||| PROP_RANGE, .Range min max⟩

/-- `DrmProperty::create_bool`. -/
def DrmProperty.create_bool (name : String) (flags : Nat) : DrmProperty :=
  DrmProperty.create_range name flags 0 1

/-- `DrmProperty::create_enum`. -/
def DrmProperty.create_enum (name : String) (flags : Nat)
    (enums : List (Nat × String)) : DrmProperty :=
  ⟨nameBytes name, flags ||| PROP_ENUM, .Enum enums⟩

/-- `DrmProperty::count_values` (`entries.len() as u32`). -/
def DrmProperty.count_values (p : DrmProperty) : Nat :=
  match p.kind with
  | .Range _ _ => 2
  | .SignedRange _ _ => 2
  | .Enum entries => entries.length % U32M
  | .Bitmask entries => entries.length % U32M
  | .Blob _ => 1
  | .Object _ => 1

/-- `DrmProperty::count_enum_blobs`. -/
def DrmProperty.count_enum_blobs (p : DrmProperty) : Nat :=
  match p.kind with
  | .Enum entries => entries.length % U32M
  | .Bitmask entries => entries.length % U32M
  | .Blob _ => 1
  | _ => 0

/-- `PropertyEnum::new`: the `(value, 32-byte name)` record written to the
enum pointer; `size_of::<PropertyEnum>()` is 8 + 32 = 40 bytes. -/
def sizeofPropertyEnum : Nat := 40

/-- `DrmModeConfig` (`mode_config/mod.rs`): the per-device registry. -/
structure DrmModeConfig where
  planes : List (Nat × DrmPlane)
  crtcs : List (Nat × DrmCrtc)
  encoders : List (Nat × DrmEncoder)
  connectors : List (Nat × DrmConnector)
  framebuffers : List (Nat × DrmFramebuffer)
  nextObjectIdCtr : Nat
  objects : List (Nat × DrmModeObjectEnt)
  nextPropIdCtr : Nat
  properties : List (Nat × DrmProperty)
  crtcIndexCtr : Nat
  encoderIndexCtr : Nat
  preferred_depth : Nat
  prefer_shadow : Nat
  min_width : Nat
  max_width : Nat
  min_height : Nat
  max_height : Nat
  cursor_width : Nat
  cursor_height : Nat
  fb_modifiers_not_supported : Bool
  async_page_flip : Bool
  deriving DecidableEq, Repr

namespace DrmModeConfig

/-- `DrmModeConfig::default()`. -/
def default : DrmModeConfig where
  planes := []
  crtcs := []
  encoders := []
  connectors := []
  framebuffers := []
  nextObjectIdCtr := 0
  objects := []
  nextPropIdCtr := 1
  properties := []
  crtcIndexCtr := 0
  encoderIndexCtr := 0
  preferred_depth := 16
  prefer_shadow := 0
  min_width := 1
  max_width := 8192
  min_height := 1
  max_height := 8192
  cursor_width := 32
  cursor_height := 32
  fb_modifiers_not_supported := true
  async_page_flip := false

/-- `next_object_id`: `AtomicU32::fetch_add(1, SeqCst)` — returns the old
32-bit value and increments with u32 wrap-around. -/
def next_object_id (c : DrmModeConfig) : Nat × DrmModeConfig :=
  (c.nextObjectIdCtr % U32M,
   { c with nextObjectIdCtr := (c.nextObjectIdCtr % U32M + 1) % U32M })

/-- `next_prop_id`: the independent property-id counter. -/
def next_prop_id (c : DrmModeConfig) : Nat × DrmModeConfig :=
  (c.nextPropIdCtr % U32M,
   { c with nextPropIdCtr := (c.nextPropIdCtr % U32M + 1) % U32M })

/-- `create_framebuffer`: allocates an id, inserts the framebuffer into
both the framebuffer table and the unified object table. -/
def create_framebuffer (c : DrmModeConfig) (width height pitch bpp : Nat)
    (gem : DrmGemObject) : Nat × DrmModeConfig :=
  let (id, c1) := c.next_object_id
  let fb : DrmFramebuffer := ⟨id, width, height, pitch, bpp, gem, []⟩
  (id, { c1 with
          framebuffers := alInsert id fb c1.framebuffers,
          objects := alInsert id (.framebuffer fb) c1.objects })

/-- `lookup_framebuffer`. -/
def lookup_framebuffer (c : DrmModeConfig) (fb_id : Nat) : Option DrmFramebuffer :=
  alGet fb_id c.framebuffers

/-- `remove_framebuffer`: removes from the framebuffer table only. -/
def remove_framebuffer (c : DrmModeConfig) (fb_id : Nat) :
    Option DrmFramebuffer × DrmModeConfig :=
  (alGet fb_id c.framebuffers,
   { c with framebuffers := alRemove fb_id c.framebuffers })

def count_planes (c : DrmModeConfig) : Nat := c.planes.length % U32M
def count_crtcs (c : DrmModeConfig) : Nat := c.crtcs.length % U32M
def count_encoders (c : DrmModeConfig) : Nat := c.encoders.length % U32M
def count_connectors (c : DrmModeConfig) : Nat := c.connectors.length % U32M
def count_framebuffers (c : DrmModeConfig) : Nat := c.framebuffers.length % U32M

def planes_id (c : DrmModeConfig) : List Nat := c.planes.map (·.1)
def crtcs_id (c : DrmModeConfig) : List Nat := c.crtcs.map (·.1)
def encoders_id (c : DrmModeConfig) : List Nat := c.encoders.map (·.1)
def connectors_id (c : DrmModeConfig) : List Nat := c.connectors.map (·.1)
def framebuffer_id (c : DrmModeConfig) : List Nat := c.framebuffers.map (·.1)

def get_plane (c : DrmModeConfig) (id : Nat) : Option DrmPlane := alGet id c.planes
def get_crtc (c : DrmModeConfig) (id : Nat) : Option DrmCrtc := alGet id c.crtcs
def get_encoder (c : DrmModeConfig) (id : Nat) : Option DrmEncoder := alGet id c.encoders
def get_connector (c : DrmModeConfig) (id : Nat) : Option DrmConnector :=
  alGet id c.connectors

/-- `get_object`: lookup in the unified polymorphic object table. -/
def get_object (c : DrmModeConfig) (id : Nat) : Option DrmModeObjectEnt :=
  alGet id c.objects

/-- `get_properties`: lookup of a property definition by id. -/
def get_properties (c : DrmModeConfig) (id : Nat) : Option DrmProperty :=
  alGet id c.properties

end DrmModeConfig

/-- `DrmPlane::init`: allocates an object id, `fb_id = 0`, inserts into the
plane table and the unified object table. -/
def DrmPlane.init (c : DrmModeConfig) (type_ : PlaneType) :
    DrmPlane × DrmModeConfig :=
  let (id, c1) := c.next_object_id
  let plane : DrmPlane := ⟨id, type_, 0, []⟩
  (plane, { c1 with
              planes := alInsert id plane c1.planes,
              objects := alInsert id (.plane plane) c1.objects })

/-- `DrmCrtc::init_with_planes`: allocates an object id and a dense crtc
index (`AtomicU8`, wraps mod 256); name defaults to `crtc-<id>`. -/
def DrmCrtc.init_with_planes (c : DrmModeConfig) (name : Option String)
    (primary : DrmPlane) (cursor : Option DrmPlane) :
    DrmCrtc × DrmModeConfig :=
  let (id, c1) := c.next_object_id
  let nm := match name with
    | some s => s
    | none => "crtc-" ++ toString id
  let index := c1.crtcIndexCtr % 256
  let crtc : DrmCrtc := ⟨id, nm, index, [], 0, primary, cursor, false, 0, 0⟩
  (crtc, { c1 with
            crtcIndexCtr := (c1.crtcIndexCtr % 256 + 1) % 256,
            crtcs := alInsert id crtc c1.crtcs,
            objects := alInsert id (.crtc crtc) c1.objects })

/-- `DrmEncoder::init_with_crtcs`: allocates an object id and a dense
encoder index; `possible_crtcs` is the OR of `1 << crtc.index` (u32
masked shift as in release-mode Rust). -/
def DrmEncoder.init_with_crtcs (c : DrmModeConfig) (type_ : EncoderType)
    (crtcs : List DrmCrtc) : DrmEncoder × DrmModeConfig :=
  let (id, c1) := c.next_object_id
  let index := c1.encoderIndexCtr % 256
  let mask := crtcs.foldl (fun m cr => (m ||| (1 <<< (cr.index % 32))) % U32M) 0
  let enc : DrmEncoder := ⟨id, type_, index, none, [], mask, 0⟩
  (enc, { c1 with
           encoderIndexCtr := (c1.encoderIndexCtr % 256 + 1) % 256,
           encoders := alInsert id enc c1.encoders,
           objects := alInsert id (.encoder enc) c1.objects })

/-- `HashSet` insert for modes: identical modes deduplicate. -/
def modeInsert (m : DrmModeModeInfo) (l : List DrmModeModeInfo) :
    List DrmModeModeInfo :=
  if l.contains m then l else l ++ [m]

/-- `HashSet` insert for encoder ids. -/
def idInsert (i : Nat) (l : List Nat) : List Nat :=
  if l.contains i then l else l ++ [i]

/-- `DrmConnector::init_with_encoder`. -/
def DrmConnector.init_with_encoder (c : DrmModeConfig) (status : ConnectorStatus)
    (modes : List DrmModeModeInfo) (encoders : List DrmEncoder) :
    DrmConnector × DrmModeConfig :=
  let (id, c1) := c.next_object_id
  let ms := modes.foldl (fun acc m => modeInsert m acc) []
  let eids := encoders.foldl (fun acc e => idInsert e.id acc) []
  let mask := encoders.foldl (fun m e => (m ||| (1 <<< (e.index % 32))) % U32M) 0
  let conn : DrmConnector :=
    ⟨id, none, ms, [], eids, mask, 0, 1, status, 384, 240, 0⟩
  (conn, { c1 with
            connectors := alInsert id conn c1.connectors,
            objects := alInsert id (.connector conn) c1.objects })

/-! ## Ioctl request/response structs (`ioctl_defs.rs`) -/

/-- `DrmVersion`. -/
structure DrmVersion where
  version_major : Int
  version_minor : Int
  version_patchlevel : Int
  name_len : Nat
  name : Nat
  date_len : Nat
  date : Nat
  desc_len : Nat
  desc : Nat
  deriving DecidableEq, Repr

def DrmVersion.is_first_call (v : DrmVersion) : Bool :=
  v.name == 0 && v.date == 0 && v.desc == 0

/-- `DrmCapabilities` with its `TryFromInt` conversion. -/
inductive DrmCapabilities where
  | DumbBuffer | VblankHighCrtc | DumbPreferredDepth | DumbPreferShadow
  | Prime | TimestampMonotonic | AsyncPageFlip | CursorWidth | CursorHeight
  | Addfb2Modifiers | PageFlipTarget | CrtcInVblankEvent | SyncObj
  | SyncObjTimeline | AtomicAsyncPageFlip
  deriving DecidableEq, Repr

def DrmCapabilities.fromU64 (n : Nat) : Option DrmCapabilities :=
  if n = 0x1 then some .DumbBuffer
  else if n = 0x2 then some .VblankHighCrtc
  else if n = 0x3 then some .DumbPreferredDepth
  else if n = 0x4 then some .DumbPreferShadow
  else if n = 0x5 then some .Prime
  else if n = 0x6 then some .TimestampMonotonic
  else if n = 0x7 then some .AsyncPageFlip
  else if n = 0x8 then some .CursorWidth
  else if n = 0x9 then some .CursorHeight
  else if n = 0x10 then some .Addfb2Modifiers
  else if n = 0x11 then some .PageFlipTarget
  else if n = 0x12 then some .CrtcInVblankEvent
  else if n = 0x13 then some .SyncObj
  else if n = 0x14 then some .SyncObjTimeline
  else if n = 0x15 then some .AtomicAsyncPageFlip
  else none

/-- `DrmGetCap`. -/
structure DrmGetCap where
  capability : Nat
  value : Nat
  deriving DecidableEq, Repr

/-- `ClientCaps` with its `TryFromInt` conversion. -/
inductive ClientCaps where
  | Stereo3D | UniversalPlane | Atomic | AspectRatio | WritebackConnectors
  | CursorPlaneHostport
  deriving DecidableEq, Repr

def ClientCaps.fromU64 (n : Nat) : Option ClientCaps :=
  if n = 1 then some .Stereo3D
  else if n = 2 then some .UniversalPlane
  else if n = 3 then some .Atomic
  else if n = 4 then some .AspectRatio
  else if n = 5 then some .WritebackConnectors
  else if n = 6 then some .CursorPlaneHostport
  else none

/-- `DrmSetClientCap`. -/
structure DrmSetClientCap where
  capability : Nat
  value : Nat
  deriving DecidableEq, Repr

/-- `DrmModeGetResources`. -/
structure DrmModeGetResources where
  fb_id_ptr : Nat
  crtc_id_ptr : Nat
  connector_id_ptr : Nat
  encoder_id_ptr : Nat
  count_fbs : Nat
  count_crtcs : Nat
  count_connectors : Nat
  count_encoders : Nat
  min_width : Nat
  max_width : Nat
  min_height : Nat
  max_height : Nat
  deriving DecidableEq, Repr

def DrmModeGetResources.is_first_call (r : DrmModeGetResources) : Bool :=
  r.fb_id_ptr == 0 && r.crtc_id_ptr == 0 && r.connector_id_ptr == 0 &&
    r.encoder_id_ptr == 0

/-- `DrmModeCrtc`. -/
structure DrmModeCrtc where
  set_connectors_ptr : Nat
  count_connectors : Nat
  crtc_id : Nat
  fb_id : Nat
  x : Nat
  y : Nat
  gamma_size : Nat
  mode_valid : Nat
  mode : DrmModeModeInfo
  deriving DecidableEq, Repr

/-- `DrmModeCursor`. -/
structure DrmModeCursor where
  flags : Nat
  crtc_id : Nat
  x : Int
  y : Int
  width : Nat
  height : Nat
  handle : Nat
  hot_x : Int
  hot_y : Int
  deriving DecidableEq, Repr

/-- `DrmModeCrtcLut`. -/
structure DrmModeCrtcLut where
  crtc_id : Nat
  gamma_size : Nat
  red : Nat
  green : Nat
  blue : Nat
  deriving DecidableEq, Repr

/-- `DrmModeGetEncoder`. -/
structure DrmModeGetEncoder where
  encoder_id : Nat
  encoder_type : Nat
  crtc_id : Nat
  possible_crtcs : Nat
  possible_clones : Nat
  deriving DecidableEq, Repr

/-- `DrmModeGetConnector`. -/
structure DrmModeGetConnector where
  encoders_ptr : Nat
  modes_ptr : Nat
  props_ptr : Nat
  prop_values_ptr : Nat
  count_modes : Nat
  count_props : Nat
  count_encoders : Nat
  encoder_id : Nat
  connector_id : Nat
  connector_type : Nat
  connector_type_id : Nat
  connection : Nat
  mm_width : Nat
  mm_height : Nat
  subpixel : Nat
  pad : Nat
  deriving DecidableEq, Repr

def DrmModeGetConnector.is_first_call (c : DrmModeGetConnector) : Bool :=
  c.encoders_ptr == 0 && c.modes_ptr == 0 && c.props_ptr == 0 &&
    c.prop_values_ptr == 0

/-- `DrmModeGetProperty`. -/
structure DrmModeGetProperty where
  values_ptr : Nat
  enum_blob_ptr : Nat
  prop_id : Nat
  flags : Nat
  name : List Nat
  count_values : Nat
  count_enum_blobs : Nat
  deriving DecidableEq, Repr

def DrmModeGetProperty.is_first_call (p : DrmModeGetProperty) : Bool :=
  p.values_ptr == 0 && p.enum_blob_ptr == 0

/-- `DrmModeConnectorSetProperty`. -/
structure DrmModeConnectorSetProperty where
  value : Nat
  prop_id : Nat
  connector_id : Nat
  deriving DecidableEq, Repr

/-- `DrmModeGetBlob`. -/
structure DrmModeGetBlob where
  blob_id : Nat
  length : Nat
  data : Nat
  deriving DecidableEq, Repr

/-- `DrmModeFBCmd`. -/
structure DrmModeFBCmd where
  fb_id : Nat
  width : Nat
  height : Nat
  pitch : Nat
  bpp : Nat
  depth : Nat
  handle : Nat
  deriving DecidableEq, Repr

/-- `DrmModeFbDirtyCmd`. -/
structure DrmModeFbDirtyCmd where
  fb_id : Nat
  flags : Nat
  color : Nat
  num_clips : Nat
  clips_ptr : Nat
  deriving DecidableEq, Repr

/-- `DrmModeCreateDumb`. -/
structure DrmModeCreateDumb where
  height : Nat
  width : Nat
  bpp : Nat
  flags : Nat
  handle : Nat
  pitch : Nat
  size : Nat
  deriving DecidableEq, Repr

/-- `DrmModeMapDumb`. -/
structure DrmModeMapDumb where
  handle : Nat
  pad : Nat
  offset : Nat
  deriving DecidableEq, Repr

/-- `DrmModeDestroyDumb`. -/
structure DrmModeDestroyDumb where
  handle : Nat
  deriving DecidableEq, Repr

/-- `DrmModeGetPlaneRes`. -/
structure DrmModeGetPlaneRes where
  plane_id_ptr : Nat
  count_planes : Nat
  deriving DecidableEq, Repr

def DrmModeGetPlaneRes.is_first_call (r : DrmModeGetPlaneRes) : Bool :=
  r.plane_id_ptr == 0

/-- `DrmModeGetPlane`. -/
structure DrmModeGetPlane where
  plane_id : Nat
  crtc_id : Nat
  fb_id : Nat
  possible_crtcs : Nat
  gamma_size : Nat
  count_format_types : Nat
  format_type_ptr : Nat
  deriving DecidableEq, Repr

/-- `DrmModeObjectGetProps`. -/
structure DrmModeObjectGetProps where
  props_ptr : Nat
  prop_values_ptr : Nat
  count_props : Nat
  obj_id : Nat
  obj_type : Nat
  deriving DecidableEq, Repr

def DrmModeObjectGetProps.is_first_call (o : DrmModeObjectGetProps) : Bool :=
  o.props_ptr == 0 && o.prop_values_ptr == 0

/-! ## Session, device and environment state -/

/-- The per-open-file state of `DrmFile` (`file.rs`): negotiated client
capability flags, the private GEM handle counter (starting at 1) and the
handle table. -/
structure DrmFileState where
  stereo_allowed : Bool
  universal_planes : Bool
  atomic : Bool
  aspect_ratio_allowed : Bool
  writeback_connectors : Bool
  supports_virtualized_cursor_plane : Bool
  nextHandleCtr : Nat
  gem_table : List (Nat × DrmGemObject)
  deriving DecidableEq, Repr

/-- `DrmFile::new`. -/
def DrmFileState.new : DrmFileState :=
  ⟨false, false, false, false, false, false, 1, []⟩

/-- `DrmFile::next_handle`: `AtomicU32::fetch_add(1, SeqCst)`. -/
def DrmFileState.next_handle (f : DrmFileState) : Nat × DrmFileState :=
  (f.nextHandleCtr % U32M,
   { f with nextHandleCtr := (f.nextHandleCtr % U32M + 1) % U32M })

/-- Mutable device-wide state: the registry plus the device-scoped offset
table.  The offset-table fields are Modelled from the spec: the
`create_offset`/`lookup_offset`/`remove_offset` methods called by `file.rs`
are not present under `src/`; §4.5 of the spec describes them (offsets
unique and stable, allocation policy a free design choice — modelled as a
monotonic counter starting at 1). -/
structure DrmDeviceState where
  mode_config : DrmModeConfig
  offsets : List (Nat × DrmGemObject)
  nextOffsetCtr : Nat
  deriving DecidableEq, Repr

/-- A fresh device state around a given registry. -/
def DrmDeviceState.fresh (c : DrmModeConfig) : DrmDeviceState := ⟨c, [], 1⟩

/-- Modelled from the spec: `create_offset(buffer) -> offset` allocates a
fresh unique offset for the buffer (the source calls this on every map
request; §4.5). -/
def DrmDeviceState.create_offset (d : DrmDeviceState) (g : DrmGemObject) :
    Nat × DrmDeviceState :=
  (d.nextOffsetCtr,
   { d with offsets := alInsert d.nextOffsetCtr g d.offsets,
            nextOffsetCtr := d.nextOffsetCtr + 1 })

/-- Modelled from the spec: `lookup_offset(offset) -> Option<buffer>`. -/
def DrmDeviceState.lookup_offset (d : DrmDeviceState) (o : Nat) :
    Option DrmGemObject :=
  alGet o d.offsets

/-- Modelled from the spec: `remove_offset(buffer)` drops any entry
referencing that buffer. -/
def DrmDeviceState.remove_offset (d : DrmDeviceState) (g : DrmGemObject) :
    DrmDeviceState :=
  { d with offsets := d.offsets.filter (fun p => p.2 ≠ g) }

/-- The full mutable state touched by an ioctl call: the session and the
device-wide state. -/
structure SysState where
  file : DrmFileState
  dev : DrmDeviceState
  deriving DecidableEq, Repr

/-- Static device/driver configuration: the feature bitset
(`DrmDevice::check_feature`), identification strings, and the optional
dumb-buffer creation hook (`DrmDriverOps::dumb_create`). -/
structure DrmDeviceM where
  driver_features : Nat
  name : String
  desc : String
  date : String
  dumb_create : Option (Nat → Nat → Nat → Except Errno DrmGemObject)

/-- `DrmDevice::check_feature`: pure bitset containment. -/
def DrmDeviceM.check_feature (d : DrmDeviceM) (f : Nat) : Bool :=
  featuresContain d.driver_features f

/-- Kernel environment outside the DRM core: whether the global legacy
`FRAMEBUFFER` scanout surface is configured (used by SetCrtc/DirtyFB). -/
structure KernelEnv where
  framebuffer_present : Bool
  /-- Whether the write-back of the ioctl argument struct to the caller's
  pointer (`cmd.write(&user_data)?`) faults for this call.  The struct
  write-back is fallible in the source and, in AddFB, CreateDumb and
  MapDumb, runs after the operation has already mutated state. -/
  copyout_fails : Bool
  deriving DecidableEq, Repr

/-- A typed record of one write to external (user-space) memory. -/
inductive UWrite where
  | w32 (addr val : Nat)
  | w64 (addr val : Nat)
  | wi64 (addr : Nat) (val : Int)
  | wbytes (addr : Nat) (bytes : List Nat)
  | wmode (addr : Nat) (m : DrmModeModeInfo)
  | wenum (addr : Nat) (value : Nat) (name : List Nat)
  deriving DecidableEq, Repr

/-- The ioctl argument struct written back to the caller (`cmd.write`). -/
inductive UOut where
  | version (v : DrmVersion)
  | getCap (g : DrmGetCap)
  | getResources (r : DrmModeGetResources)
  | crtc (c : DrmModeCrtc)
  | encoder (e : DrmModeGetEncoder)
  | connector (c : DrmModeGetConnector)
  | property (p : DrmModeGetProperty)
  | fbcmd (f : DrmModeFBCmd)
  | createDumb (c : DrmModeCreateDumb)
  | mapDumb (m : DrmModeMapDumb)
  | getPlaneRes (r : DrmModeGetPlaneRes)
  | getPlane (p : DrmModeGetPlane)
  | objProps (o : DrmModeObjectGetProps)
  deriving DecidableEq, Repr

/-- The outcome of one ioctl call: return value or errno, the resulting
state, the array writes performed to external memory, and the argument
struct written back (if the operation reached `cmd.write`). -/
structure IoctlOutcome where
  result : Except Errno Int
  state : SysState
  writes : List UWrite
  out : Option UOut
  deriving Repr

/-- `cmd.write(&user_data)?` followed by `Ok(0)`: the argument-struct
write-back to the caller's pointer.  On a fault it returns `EFAULT` with
whatever state the operation has reached; otherwise it returns the struct
and `Ok(0)`.  Array-element writes inside Fill loops are recorded in the
trace instead; they occur only in operations that never mutate state, so
their fault paths cannot cause partial application. -/
def copyout (env : KernelEnv) (st : SysState) (w : List UWrite) (o : UOut) :
    IoctlOutcome :=
  if env.copyout_fails then ⟨.error .EFAULT, st, w, none⟩
  else ⟨.ok 0, st, w, some o⟩

/-! ## The ioctl operations (`file.rs`, `DrmFile::ioctl`) -/

/-- The id-array write loop: element `i` goes to `ptr + i * 4`. -/
def w32Array (ptr : Nat) (ids : List Nat) : List UWrite :=
  ids.enum.map (fun p => .w32 (ptr + p.1 * 4) p.2)

/-- `DRM_IOCTL_VERSION`. -/
def drmIoctlVersion (dev : DrmDeviceM) (env : KernelEnv) (st : SysState)
    (ud : DrmVersion) : IoctlOutcome :=
  let nameB := dev.name.toUTF8.toList.map (fun b => b.toNat)
  let descB := dev.desc.toUTF8.toList.map (fun b => b.toNat)
  let dateB := dev.date.toUTF8.toList.map (fun b => b.toNat)
  if ud.is_first_call then
    copyout env st [] (.version { ud with
      name_len := nameB.length, desc_len := descB.length,
      date_len := dateB.length })
  else
    if nameB.length ≤ ud.name_len then
      if descB.length ≤ ud.desc_len then
        if dateB.length ≤ ud.date_len then
          ⟨.ok 0, st,
           [.wbytes ud.name nameB, .wbytes ud.desc descB, .wbytes ud.date dateB],
           none⟩
        else
          ⟨.error .EINVAL, st, [.wbytes ud.name nameB, .wbytes ud.desc descB],
           none⟩
      else ⟨.error .EINVAL, st, [.wbytes ud.name nameB], none⟩
    else ⟨.error .EINVAL, st, [], none⟩

/-- `DRM_IOCTL_GET_CAP`. -/
def drmIoctlGetCap (dev : DrmDeviceM) (env : KernelEnv) (st : SysState)
    (ud : DrmGetCap) : IoctlOutcome :=
  match DrmCapabilities.fromU64 ud.capability with
  | none => ⟨.error .EINVAL, st, [], none⟩
  | some cap =>
    let value : Except Errno Nat :=
      match cap with
      | .TimestampMonotonic => .ok 1
      | .Prime => .ok 3
      | .SyncObj => .ok (if dev.check_feature FEATURE_SYNCOBJ then 1 else 0)
      | .SyncObjTimeline =>
        .ok (if dev.check_feature FEATURE_SYNCOBJ_TIMELINE then 1 else 0)
      | _ =>
        if !dev.check_feature FEATURE_MODESET then .error .EOPNOTSUPP
        else
          let mc := st.dev.mode_config
          .ok (match cap with
            | .DumbBuffer => if dev.dumb_create.isSome then 1 else 0
            | .VblankHighCrtc => 1
            | .DumbPreferredDepth => mc.preferred_depth
            | .DumbPreferShadow => mc.prefer_shadow
            | .AsyncPageFlip => if mc.async_page_flip then 1 else 0
            | .PageFlipTarget => 0
            | .CursorWidth => if mc.cursor_width = 0 then 64 else mc.cursor_width
            | .CursorHeight => if mc.cursor_height = 0 then 64 else mc.cursor_height
            | .Addfb2Modifiers => if mc.fb_modifiers_not_supported then 0 else 1
            | .CrtcInVblankEvent => 1
            | .AtomicAsyncPageFlip =>
              if dev.check_feature FEATURE_ATOMIC && mc.async_page_flip then 1
              else 0
            | _ => 0)
    match value with
    | .error e => ⟨.error e, st, [], none⟩
    | .ok v => copyout env st [] (.getCap { ud with value := v })

/-- `DRM_IOCTL_SET_CLIENT_CAP`. -/
def drmIoctlSetClientCap (dev : DrmDeviceM) (st : SysState)
    (ud : DrmSetClientCap) : IoctlOutcome :=
  if !dev.check_feature FEATURE_MODESET then ⟨.error .EOPNOTSUPP, st, [], none⟩
  else
    match ClientCaps.fromU64 ud.capability with
    | none => ⟨.error .EINVAL, st, [], none⟩
    | some .Stereo3D =>
      match ud.value with
      | 0 | 1 =>
        ⟨.ok 0, { st with file := { st.file with stereo_allowed := ud.value == 1 } },
         [], none⟩
      | _ => ⟨.error .EINVAL, st, [], none⟩
    | some .UniversalPlane =>
      match ud.value with
      | 0 | 1 =>
        ⟨.ok 0,
         { st with file := { st.file with universal_planes := ud.value == 1 } },
         [], none⟩
      | _ => ⟨.error .EINVAL, st, [], none⟩
    | some .Atomic =>
      if !dev.check_feature FEATURE_ATOMIC then ⟨.error .EOPNOTSUPP, st, [], none⟩
      else
        match ud.value with
        | 0 | 1 | 2 =>
          ⟨.ok 0,
           { st with file := { st.file with
              atomic := decide (1 ≤ ud.value),
              universal_planes := decide (1 ≤ ud.value),
              aspect_ratio_allowed := ud.value == 2 } },
           [], none⟩
        | _ => ⟨.error .EINVAL, st, [], none⟩
    | some .AspectRatio =>
      match ud.value with
      | 0 | 1 =>
        ⟨.ok 0,
         { st with file := { st.file with aspect_ratio_allowed := ud.value == 1 } },
         [], none⟩
      | _ => ⟨.error .EINVAL, st, [], none⟩
    | some .WritebackConnectors =>
      if !st.file.atomic then ⟨.error .EINVAL, st, [], none⟩
      else
        match ud.value with
        | 0 | 1 =>
          ⟨.ok 0,
           { st with file :=
              { st.file with writeback_connectors := ud.value == 1 } },
           [], none⟩
        | _ => ⟨.error .EINVAL, st, [], none⟩
    | some .CursorPlaneHostport =>
      if !dev.check_feature FEATURE_CURSOR_HOTSPOT then
        ⟨.error .EOPNOTSUPP, st, [], none⟩
      else if !st.file.atomic then ⟨.error .EINVAL, st, [], none⟩
      else
        match ud.value with
        | 0 | 1 =>
          ⟨.ok 0,
           { st with file := { st.file with
              supports_virtualized_cursor_plane := ud.value == 1 } },
           [], none⟩
        | _ => ⟨.error .EINVAL, st, [], none⟩

/-- `DRM_IOCTL_MODE_GETRESOURCES`.  In the Fill phase the source writes the
framebuffer ids to `user_data.encoder_id_ptr` (file.rs line 435); the
`fb_id_ptr` field is never used as a write target.  The model reproduces
this faithfully. -/
def drmIoctlModeGetResources (dev : DrmDeviceM) (env : KernelEnv)
    (st : SysState) (ud : DrmModeGetResources) : IoctlOutcome :=
  if !dev.check_feature FEATURE_MODESET then ⟨.error .EOPNOTSUPP, st, [], none⟩
  else
    let res := st.dev.mode_config
    let cc := res.count_crtcs
    let ce := res.count_encoders
    let cn := res.count_connectors
    let cf := res.count_framebuffers
    if ud.is_first_call then
      copyout env st [] (.getResources { ud with
        count_crtcs := cc, count_encoders := ce,
        count_connectors := cn, count_fbs := cf })
    else
      if cn ≤ ud.count_connectors then
        let wConn := w32Array ud.connector_id_ptr res.connectors_id
        if cc ≤ ud.count_crtcs then
          let wCrtc := w32Array ud.crtc_id_ptr res.crtcs_id
          if ce ≤ ud.count_encoders then
            let wEnc := w32Array ud.encoder_id_ptr res.encoders_id
            if cf ≤ ud.count_fbs then
              let wFb := w32Array ud.encoder_id_ptr res.framebuffer_id
              ⟨.ok 0, st, wConn ++ wCrtc ++ wEnc ++ wFb, none⟩
            else ⟨.error .EFAULT, st, wConn ++ wCrtc ++ wEnc, none⟩
          else ⟨.error .EFAULT, st, wConn ++ wCrtc, none⟩
        else ⟨.error .EFAULT, st, wConn, none⟩
      else ⟨.error .EFAULT, st, [], none⟩

/-- `DRM_IOCTL_MODE_GETCRTC`. -/
def drmIoctlModeGetCrtc (dev : DrmDeviceM) (env : KernelEnv) (st : SysState)
    (ud : DrmModeCrtc) : IoctlOutcome :=
  if !dev.check_feature FEATURE_MODESET then ⟨.error .EOPNOTSUPP, st, [], none⟩
  else
    match st.dev.mode_config.get_crtc ud.crtc_id with
    | none => ⟨.error .ENOENT, st, [], none⟩
    | some crtc =>
      copyout env st [] (.crtc { ud with
        gamma_size := crtc.gamma_size, fb_id := crtc.fb_id,
        x := crtc.x, y := crtc.y })

/-- `DRM_IOCTL_MODE_SETCRTC` (degraded legacy scanout copy). -/
def drmIoctlModeSetCrtc (dev : DrmDeviceM) (env : KernelEnv) (st : SysState)
    (ud : DrmModeCrtc) : IoctlOutcome :=
  if !dev.check_feature FEATURE_MODESET then ⟨.error .EOPNOTSUPP, st, [], none⟩
  else
    if env.framebuffer_present then
      match st.dev.mode_config.lookup_framebuffer ud.fb_id with
      | some fb =>
        match fb.readErr with
        | some e => ⟨.error e, st, [], none⟩
        | none => ⟨.ok 0, st, [], none⟩
      | none => ⟨.error .ENOENT, st, [], none⟩
    else ⟨.error .ENOENT, st, [], none⟩

/-- `DRM_IOCTL_MODE_CURSOR` / `CURSOR2`: hardware cursor unsupported. -/
def drmIoctlModeCursor (st : SysState) (_ud : DrmModeCursor) : IoctlOutcome :=
  ⟨.error .ENXIOErr, st, [], none⟩

/-- `DRM_IOCTL_SET_GAMMA`: stub, accepted with no effect. -/
def drmIoctlSetGamma (st : SysState) (_ud : DrmModeCrtcLut) : IoctlOutcome :=
  ⟨.ok 0, st, [], none⟩

/-- `DRM_IOCTL_MODE_GETENCODER`. -/
def drmIoctlModeGetEncoder (dev : DrmDeviceM) (env : KernelEnv)
    (st : SysState) (ud : DrmModeGetEncoder) : IoctlOutcome :=
  if !dev.check_feature FEATURE_MODESET then ⟨.error .EOPNOTSUPP, st, [], none⟩
  else
    match st.dev.mode_config.get_encoder ud.encoder_id with
    | none => ⟨.error .ENOENT, st, [], none⟩
    | some e =>
      copyout env st [] (.encoder { ud with
        encoder_type := e.type_.val, encoder_id := e.id,
        possible_crtcs := e.possible_crtcs,
        possible_clones := e.possible_clones })

/-- `DRM_IOCTL_MODE_GETCONNECTOR`. -/
def drmIoctlModeGetConnector (dev : DrmDeviceM) (env : KernelEnv)
    (st : SysState) (ud : DrmModeGetConnector) : IoctlOutcome :=
  if !dev.check_feature FEATURE_MODESET then ⟨.error .EOPNOTSUPP, st, [], none⟩
  else
    match st.dev.mode_config.get_connector ud.connector_id with
    | none => ⟨.error .ENOENT, st, [], none⟩
    | some conn =>
      let cm := conn.count_modes
      let cp := conn.count_props
      let ce := conn.count_encoders
      if ud.is_first_call then
        copyout env st [] (.connector { ud with
          count_modes := cm, count_props := cp, count_encoders := ce,
          connector_type := conn.type_, connector_type_id := conn.type_id,
          connection := conn.status.val, mm_width := conn.mm_width,
          mm_height := conn.mm_height, subpixel := conn.subpixel_order,
          pad := 0 })
      else
        if cm ≤ ud.count_modes then
          let wModes := conn.modes.enum.map
            (fun p => UWrite.wmode (ud.modes_ptr + p.1 * sizeofModeInfo) p.2)
          if ce ≤ ud.count_encoders then
            let wEnc := w32Array ud.encoders_ptr conn.possible_encoders_id
            if cp ≤ ud.count_props then
              let wProps := (conn.properties.enum.map (fun p =>
                [UWrite.w32 (ud.props_ptr + p.1 * 4) p.2.1,
                 UWrite.w64 (ud.prop_values_ptr + p.1 * 8) p.2.2])).flatten
              ⟨.ok 0, st, wModes ++ wEnc ++ wProps, none⟩
            else ⟨.error .EFAULT, st, wModes ++ wEnc, none⟩
          else ⟨.error .EFAULT, st, wModes, none⟩
        else ⟨.error .EFAULT, st, [], none⟩

/-- `DRM_IOCTL_MODE_GETPROPERTY`. -/
def drmIoctlModeGetProperty (dev : DrmDeviceM) (env : KernelEnv)
    (st : SysState) (ud : DrmModeGetProperty) : IoctlOutcome :=
  if !dev.check_feature FEATURE_MODESET then ⟨.error .EOPNOTSUPP, st, [], none⟩
  else
    match st.dev.mode_config.get_properties ud.prop_id with
    | none => ⟨.error .ENOENT, st, [], none⟩
    | some p =>
      let cv := p.count_values
      let ce := p.count_enum_blobs
      if ud.is_first_call then
        copyout env st [] (.property { ud with
          name := p.name, flags := p.flags,
          count_values := cv, count_enum_blobs := ce })
      else
        if ud.count_values < cv || ud.count_enum_blobs < ce then
          ⟨.error .EINVAL, st, [], none⟩
        else
          match p.kind with
          | .Range mn mx =>
            ⟨.ok 0, st,
             [.w64 ud.values_ptr mn, .w64 (ud.values_ptr + 8) mx], none⟩
          | .SignedRange mn mx =>
            ⟨.ok 0, st,
             [.wi64 ud.values_ptr mn, .wi64 (ud.values_ptr + 8) mx], none⟩
          | .Enum items =>
            ⟨.ok 0, st,
             (items.enum.map (fun q =>
               [UWrite.w64 (ud.values_ptr + q.1 * 8) q.2.1,
                UWrite.wenum (ud.enum_blob_ptr + q.1 * sizeofPropertyEnum)
                  q.2.1 (nameBytes q.2.2)])).flatten, none⟩
          | .Bitmask items =>
            ⟨.ok 0, st,
             (items.enum.map (fun q =>
               [UWrite.w64 (ud.values_ptr + q.1 * 8) q.2.1,
                UWrite.wenum (ud.enum_blob_ptr + q.1 * sizeofPropertyEnum)
                  q.2.1 (nameBytes q.2.2)])).flatten, none⟩
          | .Blob blob_id => ⟨.ok 0, st, [.w32 ud.values_ptr blob_id], none⟩
          | .Object t => ⟨.ok 0, st, [.w32 ud.values_ptr t], none⟩

/-- `DRM_IOCTL_MODE_SETPROPERTY`: stub behind the MODESET gate. -/
def drmIoctlModeSetProperty (dev : DrmDeviceM) (st : SysState)
    (_ud : DrmModeConnectorSetProperty) : IoctlOutcome :=
  if !dev.check_feature FEATURE_MODESET then ⟨.error .EOPNOTSUPP, st, [], none⟩
  else ⟨.ok 0, st, [], none⟩

/-- `DRM_IOCTL_MODE_GETPROPBLOB`: stub, no feature gate. -/
def drmIoctlModeGetPropBlob (st : SysState) (_ud : DrmModeGetBlob) :
    IoctlOutcome :=
  ⟨.ok 0, st, [], none⟩

/-- `DRM_IOCTL_MODE_ADDFB`. -/
def drmIoctlModeAddFB (dev : DrmDeviceM) (env : KernelEnv) (st : SysState)
    (ud : DrmModeFBCmd) : IoctlOutcome :=
  if !dev.check_feature FEATURE_MODESET then ⟨.error .EOPNOTSUPP, st, [], none⟩
  else
    match alGet ud.handle st.file.gem_table with
    | some gem =>
      let r := st.dev.mode_config.create_framebuffer ud.width ud.height
        ud.pitch ud.bpp gem
      copyout env { st with dev := { st.dev with mode_config := r.2 } } []
        (.fbcmd { ud with fb_id := r.1 })
    | none => ⟨.error .EINVAL, st, [], none⟩

/-- `DRM_IOCTL_MODE_RMFB`: removes via `remove_framebuffer`, ignoring the
result (`let _ = ...`), so it always succeeds. -/
def drmIoctlModeRmFB (dev : DrmDeviceM) (st : SysState) (ud : DrmModeFBCmd) :
    IoctlOutcome :=
  if !dev.check_feature FEATURE_MODESET then ⟨.error .EOPNOTSUPP, st, [], none⟩
  else
    let r := st.dev.mode_config.remove_framebuffer ud.fb_id
    ⟨.ok 0, { st with dev := { st.dev with mode_config := r.2 } }, [], none⟩

/-- `DRM_IOCTL_MODE_DIRTYFB` (legacy scanout copy). -/
def drmIoctlModeDirtyFb (dev : DrmDeviceM) (env : KernelEnv) (st : SysState)
    (ud : DrmModeFbDirtyCmd) : IoctlOutcome :=
  if !dev.check_feature FEATURE_MODESET then ⟨.error .EOPNOTSUPP, st, [], none⟩
  else
    if env.framebuffer_present then
      match st.dev.mode_config.lookup_framebuffer ud.fb_id with
      | some fb =>
        match fb.readErr with
        | some e => ⟨.error e, st, [], none⟩
        | none => ⟨.ok 0, st, [], none⟩
      | none => ⟨.error .ENOENT, st, [], none⟩
    else ⟨.error .ENOENT, st, [], none⟩

/-- `DRM_IOCTL_MODE_CREATE_DUMB`.  With the hook absent the source returns
`ENOENT` (file.rs line 811). -/
def drmIoctlModeCreateDumb (dev : DrmDeviceM) (env : KernelEnv)
    (st : SysState) (ud : DrmModeCreateDumb) : IoctlOutcome :=
  if !dev.check_feature FEATURE_MODESET then ⟨.error .EOPNOTSUPP, st, [], none⟩
  else
    match dev.dumb_create with
    | some f =>
      match f ud.width ud.height ud.bpp with
      | .error e => ⟨.error e, st, [], none⟩
      | .ok gem =>
        let r := st.file.next_handle
        copyout env
          { st with file :=
              { r.2 with gem_table := alInsert r.1 gem r.2.gem_table } } []
          (.createDumb { ud with
            handle := r.1, pitch := gem.pitch, size := gem.size })
    | none => ⟨.error .ENOENT, st, [], none⟩

/-- `DRM_IOCTL_MODE_MAP_DUMB`. -/
def drmIoctlModeMapDumb (dev : DrmDeviceM) (env : KernelEnv) (st : SysState)
    (ud : DrmModeMapDumb) : IoctlOutcome :=
  if !dev.check_feature FEATURE_MODESET then ⟨.error .EOPNOTSUPP, st, [], none⟩
  else
    if dev.dumb_create.isNone then ⟨.error .ENOSYS, st, [], none⟩
    else
      match alGet ud.handle st.file.gem_table with
      | some gem =>
        let r := st.dev.create_offset gem
        copyout env { st with dev := r.2 } []
          (.mapDumb { ud with offset := r.1 })
      | none => ⟨.error .ENOENT, st, [], none⟩

/-- `DRM_IOCTL_MODE_DESTROY_DUMB`: no MODESET gate; looks up and removes
the handle, then invokes backend release (fallible), then removes the
offset entry. -/
def drmIoctlModeDestroyDumb (dev : DrmDeviceM) (st : SysState)
    (ud : DrmModeDestroyDumb) : IoctlOutcome :=
  if dev.dumb_create.isNone then ⟨.error .ENOSYS, st, [], none⟩
  else
    match alGet ud.handle st.file.gem_table with
    | some gem =>
      let st1 := { st with file :=
        { st.file with gem_table := alRemove ud.handle st.file.gem_table } }
      match gem.release with
      | some e => ⟨.error e, st1, [], none⟩
      | none => ⟨.ok 0, { st1 with dev := st1.dev.remove_offset gem }, [], none⟩
    | none => ⟨.error .EINVAL, st, [], none⟩

/-- `DRM_IOCTL_MODE_GETPLANERESOURCES`. -/
def drmIoctlModeGetPlaneResources (dev : DrmDeviceM) (env : KernelEnv)
    (st : SysState) (ud : DrmModeGetPlaneRes) : IoctlOutcome :=
  if !dev.check_feature FEATURE_MODESET then ⟨.error .EOPNOTSUPP, st, [], none⟩
  else
    let cp := st.dev.mode_config.count_planes
    if ud.is_first_call then
      copyout env st [] (.getPlaneRes { ud with count_planes := cp })
    else
      if cp ≤ ud.count_planes then
        ⟨.ok 0, st, w32Array ud.plane_id_ptr st.dev.mode_config.planes_id, none⟩
      else ⟨.error .EFAULT, st, [], none⟩

/-- `DRM_IOCTL_MODE_GETPLANE` (state/format fields stubbed; only
`gamma_size` is zeroed). -/
def drmIoctlModeGetPlane (dev : DrmDeviceM) (env : KernelEnv) (st : SysState)
    (ud : DrmModeGetPlane) : IoctlOutcome :=
  if !dev.check_feature FEATURE_MODESET then ⟨.error .EOPNOTSUPP, st, [], none⟩
  else
    match st.dev.mode_config.get_plane ud.plane_id with
    | none => ⟨.error .ENOENT, st, [], none⟩
    | some _ => copyout env st [] (.getPlane { ud with gamma_size := 0 })

/-- `DRM_IOCTL_MODE_OBJ_GETPROPERTIES`. -/
def drmIoctlModeObjectGetProps (dev : DrmDeviceM) (env : KernelEnv)
    (st : SysState) (ud : DrmModeObjectGetProps) : IoctlOutcome :=
  if !dev.check_feature FEATURE_MODESET then ⟨.error .EOPNOTSUPP, st, [], none⟩
  else
    match st.dev.mode_config.get_object ud.obj_id with
    | none => ⟨.error .ENOENT, st, [], none⟩
    | some obj =>
      let cp := obj.count_props
      if ud.is_first_call then
        copyout env st [] (.objProps { ud with count_props := cp })
      else
        if cp ≤ ud.count_props then
          ⟨.ok 0, st,
           (obj.properties.enum.map (fun p =>
             [UWrite.w32 (ud.props_ptr + p.1 * 4) p.2.1,
              UWrite.w64 (ud.prop_values_ptr + p.1 * 8) p.2.2])).flatten, none⟩
        else ⟨.error .EFAULT, st, [], none⟩

/-- One decoded ioctl command with its request payload. -/
inductive DrmIoctlCmd where
  | version (ud : DrmVersion)
  | getCap (ud : DrmGetCap)
  | setClientCap (ud : DrmSetClientCap)
  | setMaster
  | dropMaster
  | modeGetResources (ud : DrmModeGetResources)
  | modeGetCrtc (ud : DrmModeCrtc)
  | modeSetCrtc (ud : DrmModeCrtc)
  | modeCursor (ud : DrmModeCursor)
  | modeCursor2 (ud : DrmModeCursor)
  | setGamma (ud : DrmModeCrtcLut)
  | modeGetEncoder (ud : DrmModeGetEncoder)
  | modeGetConnector (ud : DrmModeGetConnector)
  | modeGetProperty (ud : DrmModeGetProperty)
  | modeSetProperty (ud : DrmModeConnectorSetProperty)
  | modeGetPropBlob (ud : DrmModeGetBlob)
  | modeAddFB (ud : DrmModeFBCmd)
  | modeRmFB (ud : DrmModeFBCmd)
  | modeDirtyFb (ud : DrmModeFbDirtyCmd)
  | modeCreateDumb (ud : DrmModeCreateDumb)
  | modeMapDumb (ud : DrmModeMapDumb)
  | modeDestroyDumb (ud : DrmModeDestroyDumb)
  | modeGetPlaneResources (ud : DrmModeGetPlaneRes)
  | modeGetPlane (ud : DrmModeGetPlane)
  | modeObjectGetProps (ud : DrmModeObjectGetProps)
  | unknown
  deriving DecidableEq, Repr

/-- `DrmFile::ioctl`: the control-operation dispatcher. -/
def dispatch (dev : DrmDeviceM) (env : KernelEnv) (st : SysState) :
    DrmIoctlCmd → IoctlOutcome
  | .version ud => drmIoctlVersion dev env st ud
  | .getCap ud => drmIoctlGetCap dev env st ud
  | .setClientCap ud => drmIoctlSetClientCap dev st ud
  | .setMaster => ⟨.ok 0, st, [], none⟩
  | .dropMaster => ⟨.ok 0, st, [], none⟩
  | .modeGetResources ud => drmIoctlModeGetResources dev env st ud
  | .modeGetCrtc ud => drmIoctlModeGetCrtc dev env st ud
  | .modeSetCrtc ud => drmIoctlModeSetCrtc dev env st ud
  | .modeCursor ud => drmIoctlModeCursor st ud
  | .modeCursor2 ud => drmIoctlModeCursor st ud
  | .setGamma ud => drmIoctlSetGamma st ud
  | .modeGetEncoder ud => drmIoctlModeGetEncoder dev env st ud
  | .modeGetConnector ud => drmIoctlModeGetConnector dev env st ud
  | .modeGetProperty ud => drmIoctlModeGetProperty dev env st ud
  | .modeSetProperty ud => drmIoctlModeSetProperty dev st ud
  | .modeGetPropBlob ud => drmIoctlModeGetPropBlob st ud
  | .modeAddFB ud => drmIoctlModeAddFB dev env st ud
  | .modeRmFB ud => drmIoctlModeRmFB dev st ud
  | .modeDirtyFb ud => drmIoctlModeDirtyFb dev env st ud
  | .modeCreateDumb ud => drmIoctlModeCreateDumb dev env st ud
  | .modeMapDumb ud => drmIoctlModeMapDumb dev env st ud
  | .modeDestroyDumb ud => drmIoctlModeDestroyDumb dev st ud
  | .modeGetPlaneResources ud => drmIoctlModeGetPlaneResources dev env st ud
  | .modeGetPlane ud => drmIoctlModeGetPlane dev env st ud
  | .modeObjectGetProps ud => drmIoctlModeObjectGetProps dev env st ud
  | .unknown => ⟨.error .ENOTTY, st, [], none⟩

/-- The memfd-backed dumb-buffer creation hook
(`DrmMemfdDriverOps::dumb_create_impl`, `gem/memfd.rs`):
`pitch = width * (bpp / 8)`, `size = pitch * height` in u32 arithmetic;
the memfd backend's operations succeed in this model of the environment. -/
def memfdDumbCreate (width height bpp : Nat) : Except Errno DrmGemObject :=
  let pitch := (width * (bpp / 8)) % U32M
  let size := (pitch * height) % U32M
  .ok ⟨size, pitch, ⟨none, none, size⟩⟩

/-! ## Association-list lemmas -/

theorem alGet_alInsert_self {α : Type} (k : Nat) (v : α) :
    ∀ l : List (Nat × α), alGet k (alInsert k v l) = some v
  | [] => by simp [alInsert, alGet]
  | (k', v') :: rest => by
    by_cases h : k' = k
    · simp [alInsert, alGet, h]
    · simp [alInsert, alGet, h, alGet_alInsert_self k v rest]

theorem alGet_alRemove_self {α : Type} (k : Nat) :
    ∀ l : List (Nat × α), alGet k (alRemove k l) = none
  | [] => rfl
  | (k', v') :: rest => by
    have ih := alGet_alRemove_self (α := α) k rest
    by_cases h : k' = k
    · subst h
      simpa [alRemove, List.filter_cons] using ih
    · simpa [alRemove, List.filter_cons, bne_iff_ne, h, alGet] using ih

/-! ## Concrete scenario devices and states -/

/-- The simpledrm driver features (`simple_drm.rs`): ATOMIC | GEM | MODESET,
combined with the memfd dumb-buffer hook (`DRM_MEMFD_DRIVER_OPS`). -/
def memfdDev : DrmDeviceM :=
  { driver_features := FEATURE_ATOMIC ||| FEATURE_GEM ||| FEATURE_MODESET
    name := "simpledrm"
    desc := "DRM driver for simple-framebuffer platform devices"
    date := "2025-01-02"
    dumb_create := some memfdDumbCreate }

/-- A MODESET-capable device whose driver supplies no dumb-buffer hook. -/
def noHookDev : DrmDeviceM :=
  { driver_features := FEATURE_GEM ||| FEATURE_MODESET
    name := "simpledrm"
    desc := "DRM driver for simple-framebuffer platform devices"
    date := "2025-01-02"
    dumb_create := none }

/-- A device whose feature bitset lacks MODESET but that still has the
dumb-buffer hook. -/
def noModesetDev : DrmDeviceM :=
  { driver_features := FEATURE_GEM
    name := "simpledrm"
    desc := "DRM driver for simple-framebuffer platform devices"
    date := "2025-01-02"
    dumb_create := some memfdDumbCreate }

/-- A fresh session on a fresh device state. -/
def freshState : SysState :=
  ⟨DrmFileState.new, DrmDeviceState.fresh DrmModeConfig.default⟩

def env0 : KernelEnv := ⟨true, false⟩

/-- An environment in which the argument-struct write-back faults. -/
def envFault : KernelEnv := ⟨true, true⟩

/-! ## C10 -/

/-- C10: in a freshly constructed registry the first `next_object_id()`
call returns 0 and the first `next_prop_id()` call returns 1; the first
mode-setting object created (here a plane) receives object id 0, the same
value planes store in `fb_id` to mean "no framebuffer attached". -/
theorem fresh_registry_first_ids (ty : PlaneType) :
    (DrmModeConfig.default.next_object_id).1 = 0 ∧
    (DrmModeConfig.default.next_prop_id).1 = 1 ∧
    (DrmPlane.init DrmModeConfig.default ty).1.id = 0 ∧
    (DrmPlane.init DrmModeConfig.default ty).1.fb_id = 0 := by
  refine ⟨by decide, by decide, rfl, rfl⟩

/-! ## C9 -/

/-- C9: `create_framebuffer` inserts into both the framebuffer table and
the unified object table, but `remove_framebuffer` (what RmFB invokes)
removes only from the framebuffer table: afterwards `lookup_framebuffer`
returns `none` while `get_object` still returns the framebuffer, so an
`ObjectGetProperties` call on the removed id still succeeds. -/
theorem remove_framebuffer_leaves_object_table
    (c : DrmModeConfig) (w h p b : Nat) (g : DrmGemObject)
    (dev : DrmDeviceM) (env : KernelEnv) (fs : DrmFileState)
    (offs : List (Nat × DrmGemObject)) (noff : Nat)
    (hm : dev.check_feature FEATURE_MODESET = true)
    (hcf : env.copyout_fails = false) :
    let r := c.create_framebuffer w h p b g
    let r2 := r.2.remove_framebuffer r.1
    r2.2.lookup_framebuffer r.1 = none ∧
    r2.2.objects = r.2.objects ∧
    r2.2.get_object r.1 =
      some (.framebuffer ⟨r.1, w, h, p, b, g, []⟩) ∧
    (drmIoctlModeObjectGetProps dev env ⟨fs, ⟨r2.2, offs, noff⟩⟩
        ⟨0, 0, 0, r.1, 0⟩).result = .ok 0 := by
  intro r r2
  have hobj : r2.2.objects = r.2.objects := rfl
  have hget : r2.2.get_object r.1 =
      some (.framebuffer ⟨r.1, w, h, p, b, g, []⟩) := by
    show alGet r.1 r2.2.objects = _
    rw [hobj]
    exact alGet_alInsert_self _ _ _
  refine ⟨alGet_alRemove_self _ _, hobj, hget, ?_⟩
  simp [drmIoctlModeObjectGetProps, hm, hget, copyout, hcf,
    DrmModeObjectGetProps.is_first_call]

/-- C9 witness: the scenario evaluated on a concrete registry. -/
theorem remove_framebuffer_leaves_object_table_witness :
    memfdDev.check_feature FEATURE_MODESET = true ∧
    (let r := DrmModeConfig.default.create_framebuffer 1280 800 5120 32
        ⟨4096000, 5120, ⟨none, none, 4096000⟩⟩
     let r2 := r.2.remove_framebuffer r.1
     r2.2.lookup_framebuffer r.1 = none) :=
  ⟨by decide,
   (remove_framebuffer_leaves_object_table DrmModeConfig.default 1280 800 5120
      32 ⟨4096000, 5120, ⟨none, none, 4096000⟩⟩ memfdDev env0 DrmFileState.new
      [] 1 (by decide) rfl).1⟩

/-! ## C4 -/

/-- C4: in a fresh session on a device with the memfd dumb-buffer hook,
`CreateDumb(width=1280, height=800, bpp=32)` succeeds with handle 1,
pitch 5120 and size 4096000; a second `CreateDumb` yields handle 2; after
`DestroyDumb(1)` succeeds, `MapDumb(1)` fails with NotFound (`ENOENT`). -/
theorem dumb_buffer_lifecycle_scenario :
    let cd : DrmModeCreateDumb := ⟨800, 1280, 32, 0, 0, 0, 0⟩
    let o1 := dispatch memfdDev env0 freshState (.modeCreateDumb cd)
    let o2 := dispatch memfdDev env0 o1.state (.modeCreateDumb cd)
    let o3 := dispatch memfdDev env0 o2.state (.modeDestroyDumb ⟨1⟩)
    let o4 := dispatch memfdDev env0 o3.state (.modeMapDumb ⟨1, 0, 0⟩)
    o1.result = .ok 0 ∧
    o1.out = some (.createDumb ⟨800, 1280, 32, 0, 1, 5120, 4096000⟩) ∧
    o2.result = .ok 0 ∧
    o2.out = some (.createDumb ⟨800, 1280, 32, 0, 2, 5120, 4096000⟩) ∧
    o3.result = .ok 0 ∧
    o4.result = .error .ENOENT := by
  exact ⟨rfl, rfl, rfl, rfl, rfl, rfl⟩

/-! ## C5 -/

/-- C5: on a device advertising MODESET and ATOMIC, `SetClientCap` with
the Atomic capability (3) accepts exactly the values 0, 1 and 2: it sets
the session's atomic flag to `value >= 1`, universal-planes to
`value >= 1` and aspect-ratio-allowed to `value == 2`; every value >= 3
fails with InvalidArgument (`EINVAL`) and leaves all flags (and all other
state) unchanged. -/
theorem set_client_cap_atomic_cascade (dev : DrmDeviceM) (st : SysState)
    (v : Nat)
    (hm : dev.check_feature FEATURE_MODESET = true)
    (ha : dev.check_feature FEATURE_ATOMIC = true) :
    (v ≤ 2 →
      (drmIoctlSetClientCap dev st ⟨3, v⟩).result = .ok 0 ∧
      (drmIoctlSetClientCap dev st ⟨3, v⟩).state =
        { st with file := { st.file with
            atomic := decide (1 ≤ v),
            universal_planes := decide (1 ≤ v),
            aspect_ratio_allowed := v == 2 } }) ∧
    (3 ≤ v →
      (drmIoctlSetClientCap dev st ⟨3, v⟩).result = .error .EINVAL ∧
      (drmIoctlSetClientCap dev st ⟨3, v⟩).state = st) := by
  constructor
  · intro hv
    rcases v with _ | _ | _ | n
    · simp [drmIoctlSetClientCap, hm, ha, ClientCaps.fromU64]
    · simp [drmIoctlSetClientCap, hm, ha, ClientCaps.fromU64]
    · simp [drmIoctlSetClientCap, hm, ha, ClientCaps.fromU64]
    · omega
  · intro hv
    rcases v with _ | _ | _ | n
    · omega
    · omega
    · omega
    · simp [drmIoctlSetClientCap, hm, ha, ClientCaps.fromU64]

/-- C5 witness: value 3 on the simpledrm feature set is rejected. -/
theorem set_client_cap_atomic_cascade_witness :
    memfdDev.check_feature FEATURE_MODESET = true ∧
    (drmIoctlSetClientCap memfdDev freshState ⟨3, 3⟩).result = .error .EINVAL :=
  ⟨by decide,
   ((set_client_cap_atomic_cascade memfdDev freshState 3 (by decide)
      (by decide)).2 (by decide)).1⟩

/-! ## C7 -/

/-- C7 counterexample: on a MODESET device whose driver supplies no
dumb-create hook, CreateDumb fails with `ENOENT` (the NotFound kind), not
with `ENOSYS` (Unimplemented) as the claim states. -/
theorem create_dumb_no_hook_enoent :
    (dispatch noHookDev env0 freshState
        (.modeCreateDumb ⟨800, 1280, 32, 0, 0, 0, 0⟩)).result =
      .error .ENOENT ∧
    Errno.ENOENT ≠ Errno.ENOSYS := by
  exact ⟨rfl, by decide⟩

/-- C7 amended: with the dumb-create hook absent, on a MODESET device
CreateDumb fails with NotFound (`ENOENT`) while MapDumb and DestroyDumb
fail with Unimplemented (`ENOSYS`); none of them modifies any state
(in particular the session's handle table). -/
theorem dumb_ops_without_hook (dev : DrmDeviceM) (env : KernelEnv)
    (st : SysState)
    (ud1 : DrmModeCreateDumb) (ud2 : DrmModeMapDumb) (ud3 : DrmModeDestroyDumb)
    (hnone : dev.dumb_create = none)
    (hm : dev.check_feature FEATURE_MODESET = true) :
    (drmIoctlModeCreateDumb dev env st ud1).result = .error .ENOENT ∧
    (drmIoctlModeCreateDumb dev env st ud1).state = st ∧
    (drmIoctlModeMapDumb dev env st ud2).result = .error .ENOSYS ∧
    (drmIoctlModeMapDumb dev env st ud2).state = st ∧
    (drmIoctlModeDestroyDumb dev st ud3).result = .error .ENOSYS ∧
    (drmIoctlModeDestroyDumb dev st ud3).state = st := by
  simp [drmIoctlModeCreateDumb, drmIoctlModeMapDumb, drmIoctlModeDestroyDumb,
    hnone, hm]

/-! ## C1 -/

/-- A memfd-style buffer for a 1280x800x32 framebuffer. -/
def gemA : DrmGemObject := ⟨4096000, 5120, ⟨none, none, 4096000⟩⟩

/-- A registry built through the creation paths of `simple_drm.rs`:
one primary plane (id 0), one CRTC (id 1), one encoder (id 2), one
connector (id 3), plus one framebuffer (id 4). -/
def scenarioConfig : DrmModeConfig :=
  let r1 := DrmPlane.init DrmModeConfig.default .Primary
  let r2 := DrmCrtc.init_with_planes r1.2 none r1.1 none
  let r3 := DrmEncoder.init_with_crtcs r2.2 .VIRTUAL [r2.1]
  let r4 := DrmConnector.init_with_encoder r3.2 .Connected [] [r3.1]
  (r4.2.create_framebuffer 1280 800 5120 32 gemA).2

def scenarioState : SysState :=
  ⟨DrmFileState.new, DrmDeviceState.fresh scenarioConfig⟩

/-- The GetResources Probe call on the scenario registry. -/
def resourcesProbe : IoctlOutcome :=
  dispatch memfdDev env0 scenarioState
    (.modeGetResources ⟨0, 0, 0, 0, 0, 0, 0, 0, 0, 0, 0, 0⟩)

/-- The GetResources Fill call on the scenario registry, with capacity 1
for each array: fb_id_ptr = 4000, crtc_id_ptr = 2000,
connector_id_ptr = 1000, encoder_id_ptr = 3000. -/
def resourcesFill : IoctlOutcome :=
  dispatch memfdDev env0 scenarioState
    (.modeGetResources ⟨4000, 2000, 1000, 3000, 1, 1, 1, 1, 0, 0, 0, 0⟩)

/-- C1: in the Fill phase of GetResources, the connector, CRTC and encoder
ids do go to their respective pointers, and exactly as many elements are
written per array as the Probe call reports; but the framebuffer ids are
written to `encoder_id_ptr` (file.rs line 435), not to `fb_id_ptr`, which
is never used as a write target — the claim fails on the code.  On the
scenario registry the Probe reports one entry per array, and the Fill
writes the framebuffer id 4 at address 3000 (the encoder pointer) while
address 4000 (`fb_id_ptr`) receives nothing. -/
theorem get_resources_fill_fb_ids_to_encoder_ptr :
    resourcesProbe.result = .ok 0 ∧
    resourcesProbe.out =
      some (.getResources ⟨0, 0, 0, 0, 1, 1, 1, 1, 0, 0, 0, 0⟩) ∧
    resourcesFill.result = .ok 0 ∧
    resourcesFill.writes =
      [.w32 1000 3, .w32 2000 1, .w32 3000 2, .w32 3000 4] ∧
    (resourcesFill.writes.all (fun w =>
      match w with
      | .w32 a _ => a != 4000
      | _ => true)) = true := by
  exact ⟨rfl, rfl, rfl, rfl, rfl⟩

/-! ## C2 -/

/-- A reusable buffer whose backend operations succeed. -/
def gemOk : DrmGemObject := ⟨4096, 64, ⟨none, none, 4096⟩⟩

/-- A session holding handle 1 on a fresh device. -/
def stOneHandle : SysState :=
  ⟨{ DrmFileState.new with gem_table := [(1, gemOk)] },
   DrmDeviceState.fresh DrmModeConfig.default⟩

/-- C2 counterexample: on a device whose feature bitset lacks MODESET but
whose driver has the dumb-create hook, DestroyDumb on an existing handle
succeeds (`Ok 0`) instead of failing with Unsupported, and SetClientCap —
which the claim says is gated on no device feature — fails with
`EOPNOTSUPP`. -/
theorem destroy_dumb_not_modeset_gated :
    noModesetDev.check_feature FEATURE_MODESET = false ∧
    (dispatch noModesetDev env0 stOneHandle (.modeDestroyDumb ⟨1⟩)).result =
      .ok 0 ∧
    (dispatch noModesetDev env0 stOneHandle (.setClientCap ⟨1, 0⟩)).result =
      .error .EOPNOTSUPP := by
  exact ⟨by decide, rfl, rfl⟩

/-- C2 amended: on a device lacking MODESET, each of GetResources,
GetCrtc, SetCrtc, GetEncoder, GetConnector, GetProperty, SetProperty,
AddFB, RmFB, DirtyFB, CreateDumb, MapDumb, GetPlaneResources, GetPlane
and ObjectGetProperties fails with Unsupported (`EOPNOTSUPP`) and leaves
all state unchanged; DestroyDumb is gated only on the presence of the
dumb-create hook and proceeds regardless of MODESET; SetClientCap is also
MODESET-gated; GetVersion and GetPropBlob check no feature; GetCap checks
MODESET only for the registry-derived capabilities (e.g. DumbBuffer) and
answers feature-independent ones (e.g. TimestampMonotonic) regardless. -/
theorem modeset_gating (dev : DrmDeviceM) (env : KernelEnv) (st : SysState)
    (ud1 : DrmModeGetResources) (ud2 ud3 : DrmModeCrtc)
    (ud4 : DrmModeGetEncoder) (ud5 : DrmModeGetConnector)
    (ud6 : DrmModeGetProperty) (ud7 : DrmModeConnectorSetProperty)
    (ud8 ud9 : DrmModeFBCmd) (ud10 : DrmModeFbDirtyCmd)
    (ud11 : DrmModeCreateDumb) (ud12 : DrmModeMapDumb)
    (ud13 : DrmModeGetPlaneRes) (ud14 : DrmModeGetPlane)
    (ud15 : DrmModeObjectGetProps) (udSc : DrmSetClientCap)
    (udV : DrmVersion) (udB : DrmModeGetBlob) (cv : Nat)
    (h : Nat) (gem : DrmGemObject)
    (f : Nat → Nat → Nat → Except Errno DrmGemObject)
    (hnm : dev.check_feature FEATURE_MODESET = false)
    (hhook : dev.dumb_create = some f)
    (hgem : alGet h st.file.gem_table = some gem)
    (hrel : gem.backend.releaseErr = none) :
    ((drmIoctlModeGetResources dev env st ud1).result = .error .EOPNOTSUPP ∧
      (drmIoctlModeGetResources dev env st ud1).state = st) ∧
    ((drmIoctlModeGetCrtc dev env st ud2).result = .error .EOPNOTSUPP ∧
      (drmIoctlModeGetCrtc dev env st ud2).state = st) ∧
    ((drmIoctlModeSetCrtc dev env st ud3).result = .error .EOPNOTSUPP ∧
      (drmIoctlModeSetCrtc dev env st ud3).state = st) ∧
    ((drmIoctlModeGetEncoder dev env st ud4).result = .error .EOPNOTSUPP ∧
      (drmIoctlModeGetEncoder dev env st ud4).state = st) ∧
    ((drmIoctlModeGetConnector dev env st ud5).result = .error .EOPNOTSUPP ∧
      (drmIoctlModeGetConnector dev env st ud5).state = st) ∧
    ((drmIoctlModeGetProperty dev env st ud6).result = .error .EOPNOTSUPP ∧
      (drmIoctlModeGetProperty dev env st ud6).state = st) ∧
    ((drmIoctlModeSetProperty dev st ud7).result = .error .EOPNOTSUPP ∧
      (drmIoctlModeSetProperty dev st ud7).state = st) ∧
    ((drmIoctlModeAddFB dev env st ud8).result = .error .EOPNOTSUPP ∧
      (drmIoctlModeAddFB dev env st ud8).state = st) ∧
    ((drmIoctlModeRmFB dev st ud9).result = .error .EOPNOTSUPP ∧
      (drmIoctlModeRmFB dev st ud9).state = st) ∧
    ((drmIoctlModeDirtyFb dev env st ud10).result = .error .EOPNOTSUPP ∧
      (drmIoctlModeDirtyFb dev env st ud10).state = st) ∧
    ((drmIoctlModeCreateDumb dev env st ud11).result = .error .EOPNOTSUPP ∧
      (drmIoctlModeCreateDumb dev env st ud11).state = st) ∧
    ((drmIoctlModeMapDumb dev env st ud12).result = .error .EOPNOTSUPP ∧
      (drmIoctlModeMapDumb dev env st ud12).state = st) ∧
    ((drmIoctlModeGetPlaneResources dev env st ud13).result = .error .EOPNOTSUPP ∧
      (drmIoctlModeGetPlaneResources dev env st ud13).state = st) ∧
    ((drmIoctlModeGetPlane dev env st ud14).result = .error .EOPNOTSUPP ∧
      (drmIoctlModeGetPlane dev env st ud14).state = st) ∧
    ((drmIoctlModeObjectGetProps dev env st ud15).result = .error .EOPNOTSUPP ∧
      (drmIoctlModeObjectGetProps dev env st ud15).state = st) ∧
    (drmIoctlModeDestroyDumb dev st ⟨h⟩).result = .ok 0 ∧
    ((drmIoctlSetClientCap dev st udSc).result = .error .EOPNOTSUPP ∧
      (drmIoctlSetClientCap dev st udSc).state = st) ∧
    ((drmIoctlVersion dev env st udV).result ≠ .error .EOPNOTSUPP ∧
      (drmIoctlVersion dev env st udV).state = st) ∧
    ((drmIoctlModeGetPropBlob st udB).result = .ok 0 ∧
      (drmIoctlModeGetPropBlob st udB).state = st) ∧
    (env.copyout_fails = false →
      (drmIoctlGetCap dev env st ⟨0x6, cv⟩).result = .ok 0) ∧
    (drmIoctlGetCap dev env st ⟨0x1, cv⟩).result = .error .EOPNOTSUPP := by
  refine ⟨?_, ?_, ?_, ?_, ?_, ?_, ?_, ?_, ?_, ?_, ?_, ?_, ?_, ?_, ?_, ?_,
    ?_, ?_, ?_, ?_, ?_⟩
  · simp [drmIoctlModeGetResources, hnm]
  · simp [drmIoctlModeGetCrtc, hnm]
  · simp [drmIoctlModeSetCrtc, hnm]
  · simp [drmIoctlModeGetEncoder, hnm]
  · simp [drmIoctlModeGetConnector, hnm]
  · simp [drmIoctlModeGetProperty, hnm]
  · simp [drmIoctlModeSetProperty, hnm]
  · simp [drmIoctlModeAddFB, hnm]
  · simp [drmIoctlModeRmFB, hnm]
  · simp [drmIoctlModeDirtyFb, hnm]
  · simp [drmIoctlModeCreateDumb, hnm]
  · simp [drmIoctlModeMapDumb, hnm]
  · simp [drmIoctlModeGetPlaneResources, hnm]
  · simp [drmIoctlModeGetPlane, hnm]
  · simp [drmIoctlModeObjectGetProps, hnm]
  · simp [drmIoctlModeDestroyDumb, hhook, hgem, hrel, DrmGemObject.release]
  · simp [drmIoctlSetClientCap, hnm]
  · constructor
    · simp only [drmIoctlVersion, copyout]
      repeat' split
      all_goals simp
    · simp only [drmIoctlVersion, copyout]
      repeat' split
      all_goals rfl
  · exact ⟨rfl, rfl⟩
  · intro hcf
    simp [drmIoctlGetCap, DrmCapabilities.fromU64, copyout, hcf]
  · simp [drmIoctlGetCap, DrmCapabilities.fromU64, hnm]

/-- C2 amended witness. -/
theorem modeset_gating_witness :
    noModesetDev.check_feature FEATURE_MODESET = false ∧
    (drmIoctlModeGetResources noModesetDev env0 stOneHandle
        ⟨0, 0, 0, 0, 0, 0, 0, 0, 0, 0, 0, 0⟩).result = .error .EOPNOTSUPP :=
  ⟨by decide,
   (modeset_gating noModesetDev env0 stOneHandle
      ⟨0, 0, 0, 0, 0, 0, 0, 0, 0, 0, 0, 0⟩
      ⟨0, 0, 0, 0, 0, 0, 0, 0, ⟨0, 0, 0, 0, 0, 0, 0, 0, 0, 0, 0, 0, 0, 0, []⟩⟩
      ⟨0, 0, 0, 0, 0, 0, 0, 0, ⟨0, 0, 0, 0, 0, 0, 0, 0, 0, 0, 0, 0, 0, 0, []⟩⟩
      ⟨0, 0, 0, 0, 0⟩
      ⟨0, 0, 0, 0, 0, 0, 0, 0, 0, 0, 0, 0, 0, 0, 0, 0⟩
      ⟨0, 0, 0, 0, [], 0, 0⟩ ⟨0, 0, 0⟩ ⟨0, 0, 0, 0, 0, 0, 0⟩
      ⟨0, 0, 0, 0, 0, 0, 0⟩ ⟨0, 0, 0, 0, 0⟩ ⟨800, 1280, 32, 0, 0, 0, 0⟩
      ⟨1, 0, 0⟩ ⟨0, 0⟩ ⟨0, 0, 0, 0, 0, 0, 0⟩ ⟨0, 0, 0, 0, 0⟩ ⟨1, 0⟩
      ⟨0, 0, 0, 0, 0, 0, 0, 0, 0⟩ ⟨0, 0, 0⟩ 0 1 gemOk memfdDumbCreate
      (by decide) rfl rfl rfl).1.1⟩

/-- C7 amended witness. -/
theorem dumb_ops_without_hook_witness :
    noHookDev.dumb_create = none ∧
    (drmIoctlModeCreateDumb noHookDev env0 freshState
        ⟨800, 1280, 32, 0, 0, 0, 0⟩).result = .error .ENOENT :=
  ⟨rfl,
   (dumb_ops_without_hook noHookDev env0 freshState
      ⟨800, 1280, 32, 0, 0, 0, 0⟩ ⟨1, 0, 0⟩ ⟨1⟩ rfl (by decide)).1⟩

/-! ## C6 -/

/-- C6: `count_values()` returns 2 for Range and SignedRange, the entry
count for Enum and Bitmask, and 1 for Blob and Object; `count_enum_blobs()`
returns the entry count for Enum and Bitmask, 1 for Blob and 0 otherwise;
and a GetProperty Fill call with sufficient stated capacity writes
`[min, max]` as two 64-bit values for a Range property, and for an Enum
property one 64-bit value per entry to the values pointer plus one
`(value, name)` record per entry to the enum pointer, in table order. -/
theorem property_counts_and_fill
    (nm1 nm2 : String) (fl1 fl2 mn mx : Nat) (es : List (Nat × String))
    (dev : DrmDeviceM) (env : KernelEnv) (st : SysState)
    (pid1 pid2 vp ep cv1 ce1 cv2 ce2 : Nat)
    (hes : es.length < U32M)
    (hm : dev.check_feature FEATURE_MODESET = true)
    (hp1 : st.dev.mode_config.get_properties pid1 =
      some (DrmProperty.create_range nm1 fl1 mn mx))
    (hp2 : st.dev.mode_config.get_properties pid2 =
      some (DrmProperty.create_enum nm2 fl2 es))
    (hvp : vp ≠ 0)
    (hcv1 : 2 ≤ cv1) (hcv2 : es.length ≤ cv2) (hce2 : es.length ≤ ce2) :
    (DrmProperty.create_range nm1 fl1 mn mx).count_values = 2 ∧
    (DrmProperty.create_range nm1 fl1 mn mx).count_enum_blobs = 0 ∧
    (DrmProperty.create_enum nm2 fl2 es).count_values = es.length ∧
    (DrmProperty.create_enum nm2 fl2 es).count_enum_blobs = es.length ∧
    (∀ n f a b, (DrmProperty.mk n f (.SignedRange a b)).count_values = 2 ∧
      (DrmProperty.mk n f (.SignedRange a b)).count_enum_blobs = 0) ∧
    (∀ n f (es2 : List (Nat × String)), es2.length < U32M →
      (DrmProperty.mk n f (.Bitmask es2)).count_values = es2.length ∧
      (DrmProperty.mk n f (.Bitmask es2)).count_enum_blobs = es2.length) ∧
    (∀ n f i, (DrmProperty.mk n f (.Blob i)).count_values = 1 ∧
      (DrmProperty.mk n f (.Blob i)).count_enum_blobs = 1) ∧
    (∀ n f t, (DrmProperty.mk n f (.Object t)).count_values = 1 ∧
      (DrmProperty.mk n f (.Object t)).count_enum_blobs = 0) ∧
    ((drmIoctlModeGetProperty dev env st ⟨vp, ep, pid1, 0, [], cv1, ce1⟩).result =
        .ok 0 ∧
      (drmIoctlModeGetProperty dev env st ⟨vp, ep, pid1, 0, [], cv1, ce1⟩).writes =
        [.w64 vp mn, .w64 (vp + 8) mx]) ∧
    ((drmIoctlModeGetProperty dev env st ⟨vp, ep, pid2, 0, [], cv2, ce2⟩).result =
        .ok 0 ∧
      (drmIoctlModeGetProperty dev env st ⟨vp, ep, pid2, 0, [], cv2, ce2⟩).writes =
        (es.enum.map (fun q =>
          [UWrite.w64 (vp + q.1 * 8) q.2.1,
           UWrite.wenum (ep + q.1 * 40) q.2.1 (nameBytes q.2.2)])).flatten) := by
  have hb : (vp == 0) = false := by
    simp [hvp]
  have hmod : es.length % U32M = es.length := Nat.mod_eq_of_lt hes
  have hcv1' : ¬ cv1 < 2 := Nat.not_lt.mpr hcv1
  have hcv2' : ¬ cv2 < es.length % U32M := by rw [hmod]; exact Nat.not_lt.mpr hcv2
  have hce2' : ¬ ce2 < es.length % U32M := by rw [hmod]; exact Nat.not_lt.mpr hce2
  refine ⟨rfl, rfl, hmod, hmod,
    fun n f a b => ⟨rfl, rfl⟩,
    fun n f es2 h2 => ⟨Nat.mod_eq_of_lt h2, Nat.mod_eq_of_lt h2⟩,
    fun n f i => ⟨rfl, rfl⟩,
    fun n f t => ⟨rfl, rfl⟩, ?_, ?_⟩
  · constructor
    · simp [drmIoctlModeGetProperty, hm, hp1, DrmModeGetProperty.is_first_call,
        hb, DrmProperty.count_values, DrmProperty.count_enum_blobs,
        DrmProperty.create_range, hcv1']
    · simp [drmIoctlModeGetProperty, hm, hp1, DrmModeGetProperty.is_first_call,
        hb, DrmProperty.count_values, DrmProperty.count_enum_blobs,
        DrmProperty.create_range, hcv1']
  · constructor
    · simp [drmIoctlModeGetProperty, hm, hp2, DrmModeGetProperty.is_first_call,
        hb, DrmProperty.count_values, DrmProperty.count_enum_blobs,
        DrmProperty.create_enum, hcv2', hce2']
    · simp [drmIoctlModeGetProperty, hm, hp2, DrmModeGetProperty.is_first_call,
        hb, DrmProperty.count_values, DrmProperty.count_enum_blobs,
        DrmProperty.create_enum, hcv2', hce2', sizeofPropertyEnum]

/-! ## C3: per-operation state lemmas -/

theorem drmIoctlVersion_state (dev : DrmDeviceM) (env : KernelEnv)
    (st : SysState) (ud : DrmVersion) :
    (drmIoctlVersion dev env st ud).state = st := by
  simp only [drmIoctlVersion, copyout]
  repeat' split
  all_goals rfl

theorem drmIoctlGetCap_state (dev : DrmDeviceM) (env : KernelEnv)
    (st : SysState) (ud : DrmGetCap) :
    (drmIoctlGetCap dev env st ud).state = st := by
  simp only [drmIoctlGetCap, copyout]
  repeat' split
  all_goals rfl

theorem drmIoctlModeGetResources_state (dev : DrmDeviceM) (env : KernelEnv)
    (st : SysState) (ud : DrmModeGetResources) :
    (drmIoctlModeGetResources dev env st ud).state = st := by
  simp only [drmIoctlModeGetResources, copyout]
  repeat' split
  all_goals rfl

theorem drmIoctlModeGetCrtc_state (dev : DrmDeviceM) (env : KernelEnv)
    (st : SysState) (ud : DrmModeCrtc) :
    (drmIoctlModeGetCrtc dev env st ud).state = st := by
  simp only [drmIoctlModeGetCrtc, copyout]
  repeat' split
  all_goals rfl

theorem drmIoctlModeSetCrtc_state (dev : DrmDeviceM) (env : KernelEnv)
    (st : SysState) (ud : DrmModeCrtc) :
    (drmIoctlModeSetCrtc dev env st ud).state = st := by
  simp only [drmIoctlModeSetCrtc]
  repeat' split
  all_goals rfl

theorem drmIoctlModeGetEncoder_state (dev : DrmDeviceM) (env : KernelEnv)
    (st : SysState) (ud : DrmModeGetEncoder) :
    (drmIoctlModeGetEncoder dev env st ud).state = st := by
  simp only [drmIoctlModeGetEncoder, copyout]
  repeat' split
  all_goals rfl

theorem drmIoctlModeGetConnector_state (dev : DrmDeviceM) (env : KernelEnv)
    (st : SysState) (ud : DrmModeGetConnector) :
    (drmIoctlModeGetConnector dev env st ud).state = st := by
  simp only [drmIoctlModeGetConnector, copyout]
  repeat' split
  all_goals rfl

theorem drmIoctlModeGetProperty_state (dev : DrmDeviceM) (env : KernelEnv)
    (st : SysState) (ud : DrmModeGetProperty) :
    (drmIoctlModeGetProperty dev env st ud).state = st := by
  simp only [drmIoctlModeGetProperty, copyout]
  repeat' split
  all_goals rfl

theorem drmIoctlModeDirtyFb_state (dev : DrmDeviceM) (env : KernelEnv)
    (st : SysState) (ud : DrmModeFbDirtyCmd) :
    (drmIoctlModeDirtyFb dev env st ud).state = st := by
  simp only [drmIoctlModeDirtyFb]
  repeat' split
  all_goals rfl

theorem drmIoctlModeGetPlaneResources_state (dev : DrmDeviceM)
    (env : KernelEnv) (st : SysState) (ud : DrmModeGetPlaneRes) :
    (drmIoctlModeGetPlaneResources dev env st ud).state = st := by
  simp only [drmIoctlModeGetPlaneResources, copyout]
  repeat' split
  all_goals rfl

theorem drmIoctlModeGetPlane_state (dev : DrmDeviceM) (env : KernelEnv)
    (st : SysState) (ud : DrmModeGetPlane) :
    (drmIoctlModeGetPlane dev env st ud).state = st := by
  simp only [drmIoctlModeGetPlane, copyout]
  repeat' split
  all_goals rfl

theorem drmIoctlModeObjectGetProps_state (dev : DrmDeviceM) (env : KernelEnv)
    (st : SysState) (ud : DrmModeObjectGetProps) :
    (drmIoctlModeObjectGetProps dev env st ud).state = st := by
  simp only [drmIoctlModeObjectGetProps, copyout]
  repeat' split
  all_goals rfl

theorem drmIoctlSetClientCap_err_state (dev : DrmDeviceM) (st : SysState)
    (ud : DrmSetClientCap) (e : Errno) :
    (drmIoctlSetClientCap dev st ud).result = .error e →
    (drmIoctlSetClientCap dev st ud).state = st := by
  simp only [drmIoctlSetClientCap]
  repeat' split
  all_goals simp

theorem drmIoctlModeAddFB_err_state (dev : DrmDeviceM) (env : KernelEnv)
    (st : SysState) (ud : DrmModeFBCmd) (e : Errno) :
    (drmIoctlModeAddFB dev env st ud).result = .error e →
    ((drmIoctlModeAddFB dev env st ud).state = st ∨
      ∃ gem, alGet ud.handle st.file.gem_table = some gem ∧
        env.copyout_fails = true ∧ e = .EFAULT ∧
        (drmIoctlModeAddFB dev env st ud).state =
          { st with dev := { st.dev with mode_config :=
              (st.dev.mode_config.create_framebuffer ud.width ud.height
                ud.pitch ud.bpp gem).2 } }) := by
  rcases hm : dev.check_feature FEATURE_MODESET with _ | _
  · have houtcome : drmIoctlModeAddFB dev env st ud =
        ⟨.error .EOPNOTSUPP, st, [], none⟩ := by
      unfold drmIoctlModeAddFB
      rw [hm]
      simp
    rw [houtcome]
    intro _
    left
    rfl
  · rcases hget : alGet ud.handle st.file.gem_table with _ | gem
    · have houtcome : drmIoctlModeAddFB dev env st ud =
          ⟨.error .EINVAL, st, [], none⟩ := by
        unfold drmIoctlModeAddFB
        rw [hm, hget]
        simp
      rw [houtcome]
      intro _
      left
      rfl
    · rcases hcf : env.copyout_fails with _ | _
      · have hres : (drmIoctlModeAddFB dev env st ud).result = .ok 0 := by
          unfold drmIoctlModeAddFB
          rw [hm, hget]
          simp [copyout, hcf]
        intro h
        rw [hres] at h
        exact absurd h (by simp)
      · have houtcome : drmIoctlModeAddFB dev env st ud =
            ⟨.error .EFAULT,
             { st with dev := { st.dev with mode_config :=
                 (st.dev.mode_config.create_framebuffer ud.width ud.height
                   ud.pitch ud.bpp gem).2 } }, [], none⟩ := by
          unfold drmIoctlModeAddFB
          rw [hm, hget]
          simp [copyout, hcf]
        rw [houtcome]
        intro h
        injection h with he
        right
        exact ⟨gem, rfl, rfl, he.symm, rfl⟩

theorem drmIoctlModeRmFB_err_state (dev : DrmDeviceM) (st : SysState)
    (ud : DrmModeFBCmd) (e : Errno) :
    (drmIoctlModeRmFB dev st ud).result = .error e →
    (drmIoctlModeRmFB dev st ud).state = st := by
  simp only [drmIoctlModeRmFB]
  repeat' split
  all_goals simp

theorem drmIoctlModeCreateDumb_err_state (dev : DrmDeviceM) (env : KernelEnv)
    (st : SysState) (ud : DrmModeCreateDumb) (e : Errno) :
    (drmIoctlModeCreateDumb dev env st ud).result = .error e →
    ((drmIoctlModeCreateDumb dev env st ud).state = st ∨
      ∃ f gem, dev.dumb_create = some f ∧
        f ud.width ud.height ud.bpp = .ok gem ∧
        env.copyout_fails = true ∧ e = .EFAULT ∧
        (drmIoctlModeCreateDumb dev env st ud).state =
          { st with file :=
              { (DrmFileState.next_handle st.file).2 with
                  gem_table := alInsert (DrmFileState.next_handle st.file).1
                    gem (DrmFileState.next_handle st.file).2.gem_table } }) := by
  rcases hm : dev.check_feature FEATURE_MODESET with _ | _
  · have houtcome : drmIoctlModeCreateDumb dev env st ud =
        ⟨.error .EOPNOTSUPP, st, [], none⟩ := by
      unfold drmIoctlModeCreateDumb
      rw [hm]
      simp
    rw [houtcome]
    intro _
    left
    rfl
  · rcases hdc : dev.dumb_create with _ | f
    · have houtcome : drmIoctlModeCreateDumb dev env st ud =
          ⟨.error .ENOENT, st, [], none⟩ := by
        unfold drmIoctlModeCreateDumb
        rw [hm, hdc]
        simp
      rw [houtcome]
      intro _
      left
      rfl
    · rcases hcall : f ud.width ud.height ud.bpp with e2 | gem
      · have houtcome : drmIoctlModeCreateDumb dev env st ud =
            ⟨.error e2, st, [], none⟩ := by
          simp [drmIoctlModeCreateDumb, hm, hdc, hcall]
        rw [houtcome]
        intro _
        left
        rfl
      · rcases hcf : env.copyout_fails with _ | _
        · have hres : (drmIoctlModeCreateDumb dev env st ud).result =
              .ok 0 := by
            simp [drmIoctlModeCreateDumb, hm, hdc, hcall, copyout, hcf]
          intro h
          rw [hres] at h
          exact absurd h (by simp)
        · have houtcome : drmIoctlModeCreateDumb dev env st ud =
              ⟨.error .EFAULT,
               { st with file :=
                   { (DrmFileState.next_handle st.file).2 with
                       gem_table :=
                         alInsert (DrmFileState.next_handle st.file).1
                           gem
                           (DrmFileState.next_handle st.file).2.gem_table } },
               [], none⟩ := by
            simp [drmIoctlModeCreateDumb, hm, hdc, hcall, copyout, hcf]
          rw [houtcome]
          intro h
          injection h with he
          right
          exact ⟨f, gem, rfl, hcall, rfl, he.symm, rfl⟩

theorem drmIoctlModeMapDumb_err_state (dev : DrmDeviceM) (env : KernelEnv)
    (st : SysState) (ud : DrmModeMapDumb) (e : Errno) :
    (drmIoctlModeMapDumb dev env st ud).result = .error e →
    ((drmIoctlModeMapDumb dev env st ud).state = st ∨
      ∃ gem, alGet ud.handle st.file.gem_table = some gem ∧
        env.copyout_fails = true ∧ e = .EFAULT ∧
        (drmIoctlModeMapDumb dev env st ud).state =
          { st with dev := (st.dev.create_offset gem).2 }) := by
  rcases hm : dev.check_feature FEATURE_MODESET with _ | _
  · have houtcome : drmIoctlModeMapDumb dev env st ud =
        ⟨.error .EOPNOTSUPP, st, [], none⟩ := by
      unfold drmIoctlModeMapDumb
      rw [hm]
      simp
    rw [houtcome]
    intro _
    left
    rfl
  · rcases hn : dev.dumb_create.isNone with _ | _
    · rcases hget : alGet ud.handle st.file.gem_table with _ | gem
      · have houtcome : drmIoctlModeMapDumb dev env st ud =
            ⟨.error .ENOENT, st, [], none⟩ := by
          unfold drmIoctlModeMapDumb
          rw [hm, hn, hget]
          simp
        rw [houtcome]
        intro _
        left
        rfl
      · rcases hcf : env.copyout_fails with _ | _
        · have hres : (drmIoctlModeMapDumb dev env st ud).result = .ok 0 := by
            unfold drmIoctlModeMapDumb
            rw [hm, hn, hget]
            simp [copyout, hcf]
          intro h
          rw [hres] at h
          exact absurd h (by simp)
        · have houtcome : drmIoctlModeMapDumb dev env st ud =
              ⟨.error .EFAULT,
               { st with dev := (st.dev.create_offset gem).2 }, [], none⟩ := by
            unfold drmIoctlModeMapDumb
            rw [hm, hn, hget]
            simp [copyout, hcf]
          rw [houtcome]
          intro h
          injection h with he
          right
          exact ⟨gem, rfl, rfl, he.symm, rfl⟩
    · have houtcome : drmIoctlModeMapDumb dev env st ud =
          ⟨.error .ENOSYS, st, [], none⟩ := by
        unfold drmIoctlModeMapDumb
        rw [hm, hn]
        simp
      rw [houtcome]
      intro _
      left
      rfl

theorem drmIoctlModeDestroyDumb_err_state (dev : DrmDeviceM) (st : SysState)
    (ud : DrmModeDestroyDumb) (e : Errno) :
    (drmIoctlModeDestroyDumb dev st ud).result = .error e →
    ((drmIoctlModeDestroyDumb dev st ud).state = st ∨
      ∃ gem, alGet ud.handle st.file.gem_table = some gem ∧
        gem.backend.releaseErr = some e ∧
        (drmIoctlModeDestroyDumb dev st ud).state =
          { st with file := { st.file with
              gem_table := alRemove ud.handle st.file.gem_table } }) := by
  rcases hn : dev.dumb_create.isNone with _ | _
  · rcases hget : alGet ud.handle st.file.gem_table with _ | gem
    · have houtcome : drmIoctlModeDestroyDumb dev st ud =
          ⟨.error .EINVAL, st, [], none⟩ := by
        unfold drmIoctlModeDestroyDumb
        rw [hn, hget]
        simp
      rw [houtcome]
      intro _
      left
      rfl
    · rcases hrel : gem.backend.releaseErr with _ | e2
      · have houtcome : drmIoctlModeDestroyDumb dev st ud =
            ⟨.ok 0,
             { st with
                file := { st.file with
                  gem_table := alRemove ud.handle st.file.gem_table },
                dev := st.dev.remove_offset gem }, [], none⟩ := by
          unfold drmIoctlModeDestroyDumb
          rw [hn, hget]
          simp [DrmGemObject.release, hrel]
        rw [houtcome]
        intro h
        exact absurd h (by simp)
      · have houtcome : drmIoctlModeDestroyDumb dev st ud =
            ⟨.error e2,
             { st with
                file := { st.file with
                  gem_table := alRemove ud.handle st.file.gem_table } },
             [], none⟩ := by
          unfold drmIoctlModeDestroyDumb
          rw [hn, hget]
          simp [DrmGemObject.release, hrel]
        rw [houtcome]
        intro h
        injection h with he
        right
        refine ⟨gem, rfl, ?_, rfl⟩
        rw [hrel, he]
  · have houtcome : drmIoctlModeDestroyDumb dev st ud =
        ⟨.error .ENOSYS, st, [], none⟩ := by
      unfold drmIoctlModeDestroyDumb
      rw [hn]
      simp
    rw [houtcome]
    intro _
    left
    rfl

/-- C3 counterexample: `DestroyDumb` on a handle whose backend release
fails removes the handle from the session's table and then returns the
error — the failing call has had an effect, contradicting the claim that
an erroring operation leaves the handle table unchanged. -/
def badGem : DrmGemObject := ⟨4096, 64, ⟨some .EIOErr, none, 0⟩⟩

def stBad : SysState :=
  ⟨{ DrmFileState.new with gem_table := [(1, badGem)] },
   DrmDeviceState.fresh DrmModeConfig.default⟩

/-- C3 counterexample theorem: DestroyDumb(1) fails with `EIO` yet the
handle table went from `[(1, badGem)]` to `[]`; and CreateDumb under a
faulting result write-back (file.rs:809) fails with `EFAULT` yet the
fresh session's handle table is no longer empty. -/
theorem destroy_dumb_effect_on_error :
    (dispatch memfdDev env0 stBad (.modeDestroyDumb ⟨1⟩)).result =
      .error .EIOErr ∧
    (dispatch memfdDev env0 stBad (.modeDestroyDumb ⟨1⟩)).state.file.gem_table
      = [] ∧
    stBad.file.gem_table ≠ [] ∧
    (dispatch memfdDev envFault freshState
        (.modeCreateDumb ⟨800, 1280, 32, 0, 0, 0, 0⟩)).result =
      .error .EFAULT ∧
    (dispatch memfdDev envFault freshState
        (.modeCreateDumb ⟨800, 1280, 32, 0, 0, 0, 0⟩)).state.file.gem_table ≠
      [] ∧
    freshState.file.gem_table = [] := by
  refine ⟨rfl, rfl, by decide, rfl, by decide, rfl⟩

/-- C3 amended: for every control operation and every starting state, a
call that returns an error has had no effect on the session's handle
table and capability flags, the device-scoped offset table, the
registry's object tables and the buffer backends — with four exceptions,
all on the path that follows a successful mutation: AddFB whose result
write-back faults has already created the framebuffer; CreateDumb whose
result write-back faults has already allocated the handle and inserted
the buffer; MapDumb whose result write-back faults has already allocated
the device offset (each returning AddressFault, `EFAULT`); and
DestroyDumb whose backend `release()` fails has already removed the
handle (offset table untouched), returning the backend's error. -/
theorem error_implies_no_state_change (dev : DrmDeviceM) (env : KernelEnv)
    (st : SysState) (cmd : DrmIoctlCmd) (e : Errno)
    (herr : (dispatch dev env st cmd).result = .error e) :
    (dispatch dev env st cmd).state = st ∨
    (∃ ud gem, cmd = .modeAddFB ud ∧
      alGet ud.handle st.file.gem_table = some gem ∧
      env.copyout_fails = true ∧ e = .EFAULT ∧
      (dispatch dev env st cmd).state =
        { st with dev := { st.dev with mode_config :=
            (st.dev.mode_config.create_framebuffer ud.width ud.height
              ud.pitch ud.bpp gem).2 } }) ∨
    (∃ ud f gem, cmd = .modeCreateDumb ud ∧ dev.dumb_create = some f ∧
      f ud.width ud.height ud.bpp = .ok gem ∧
      env.copyout_fails = true ∧ e = .EFAULT ∧
      (dispatch dev env st cmd).state =
        { st with file :=
            { (DrmFileState.next_handle st.file).2 with
                gem_table := alInsert (DrmFileState.next_handle st.file).1
                  gem (DrmFileState.next_handle st.file).2.gem_table } }) ∨
    (∃ ud gem, cmd = .modeMapDumb ud ∧
      alGet ud.handle st.file.gem_table = some gem ∧
      env.copyout_fails = true ∧ e = .EFAULT ∧
      (dispatch dev env st cmd).state =
        { st with dev := (st.dev.create_offset gem).2 }) ∨
    (∃ h gem, cmd = .modeDestroyDumb ⟨h⟩ ∧
      alGet h st.file.gem_table = some gem ∧
      gem.backend.releaseErr = some e ∧
      (dispatch dev env st cmd).state =
        { st with file := { st.file with
            gem_table := alRemove h st.file.gem_table } }) := by
  cases cmd with
  | version ud => exact Or.inl (drmIoctlVersion_state dev env st ud)
  | getCap ud => exact Or.inl (drmIoctlGetCap_state dev env st ud)
  | setClientCap ud =>
    exact Or.inl (drmIoctlSetClientCap_err_state dev st ud e herr)
  | setMaster => exact Or.inl rfl
  | dropMaster => exact Or.inl rfl
  | modeGetResources ud =>
    exact Or.inl (drmIoctlModeGetResources_state dev env st ud)
  | modeGetCrtc ud => exact Or.inl (drmIoctlModeGetCrtc_state dev env st ud)
  | modeSetCrtc ud => exact Or.inl (drmIoctlModeSetCrtc_state dev env st ud)
  | modeCursor ud => exact Or.inl rfl
  | modeCursor2 ud => exact Or.inl rfl
  | setGamma ud => exact Or.inl rfl
  | modeGetEncoder ud =>
    exact Or.inl (drmIoctlModeGetEncoder_state dev env st ud)
  | modeGetConnector ud =>
    exact Or.inl (drmIoctlModeGetConnector_state dev env st ud)
  | modeGetProperty ud =>
    exact Or.inl (drmIoctlModeGetProperty_state dev env st ud)
  | modeSetProperty ud =>
    exact Or.inl (by
      simp only [dispatch, drmIoctlModeSetProperty]
      split
      all_goals rfl)
  | modeGetPropBlob ud => exact Or.inl rfl
  | modeAddFB ud =>
    rcases drmIoctlModeAddFB_err_state dev env st ud e herr with h |
      ⟨gem, hg, hcf, he, hs⟩
    · exact Or.inl h
    · exact Or.inr (Or.inl ⟨ud, gem, rfl, hg, hcf, he, hs⟩)
  | modeRmFB ud => exact Or.inl (drmIoctlModeRmFB_err_state dev st ud e herr)
  | modeDirtyFb ud => exact Or.inl (drmIoctlModeDirtyFb_state dev env st ud)
  | modeCreateDumb ud =>
    rcases drmIoctlModeCreateDumb_err_state dev env st ud e herr with h |
      ⟨f, gem, hf, hcall, hcf, he, hs⟩
    · exact Or.inl h
    · exact Or.inr (Or.inr (Or.inl ⟨ud, f, gem, rfl, hf, hcall, hcf, he, hs⟩))
  | modeMapDumb ud =>
    rcases drmIoctlModeMapDumb_err_state dev env st ud e herr with h |
      ⟨gem, hg, hcf, he, hs⟩
    · exact Or.inl h
    · exact Or.inr (Or.inr (Or.inr (Or.inl ⟨ud, gem, rfl, hg, hcf, he, hs⟩)))
  | modeDestroyDumb ud =>
    rcases drmIoctlModeDestroyDumb_err_state dev st ud e herr with h |
      ⟨gem, hg, hr, hs⟩
    · exact Or.inl h
    · exact Or.inr (Or.inr (Or.inr (Or.inr
        ⟨ud.handle, gem, by cases ud; rfl, hg, hr, hs⟩)))
  | modeGetPlaneResources ud =>
    exact Or.inl (drmIoctlModeGetPlaneResources_state dev env st ud)
  | modeGetPlane ud => exact Or.inl (drmIoctlModeGetPlane_state dev env st ud)
  | modeObjectGetProps ud =>
    exact Or.inl (drmIoctlModeObjectGetProps_state dev env st ud)
  | unknown => exact Or.inl rfl

/-- C3 amended witness: a gated call on a MODESET-less device errors and,
by the theorem (whose exception branches cannot apply to RmFB), leaves
the state unchanged. -/
theorem error_implies_no_state_change_witness :
    (dispatch noModesetDev env0 freshState
        (.modeRmFB ⟨0, 0, 0, 0, 0, 0, 0⟩)).result = .error .EOPNOTSUPP ∧
    (dispatch noModesetDev env0 freshState
        (.modeRmFB ⟨0, 0, 0, 0, 0, 0, 0⟩)).state = freshState := by
  refine ⟨rfl, ?_⟩
  rcases error_implies_no_state_change noModesetDev env0 freshState
      (.modeRmFB ⟨0, 0, 0, 0, 0, 0, 0⟩) .EOPNOTSUPP rfl with
    h | ⟨_, _, hc, _⟩ | ⟨_, _, _, hc, _⟩ | ⟨_, _, hc, _⟩ | ⟨_, _, hc, _⟩
  · exact h
  all_goals cases hc

/-! ## C8 -/

/-- One object creation of any kind, with the arguments its creation path
takes (each path calls `next_object_id()` exactly once). -/
inductive CreateOp where
  | plane (t : PlaneType)
  | crtc (name : Option String) (primary : DrmPlane) (cursor : Option DrmPlane)
  | encoder (t : EncoderType) (crtcs : List DrmCrtc)
  | connector (s : ConnectorStatus) (modes : List DrmModeModeInfo)
      (encs : List DrmEncoder)
  | framebuffer (w h p b : Nat) (g : DrmGemObject)

/-- Run one creation against the registry, returning the new object's id. -/
def applyCreate (c : DrmModeConfig) : CreateOp → Nat × DrmModeConfig
  | .plane t =>
    let r := DrmPlane.init c t
    (r.1.id, r.2)
  | .crtc n p cur =>
    let r := DrmCrtc.init_with_planes c n p cur
    (r.1.id, r.2)
  | .encoder t cs =>
    let r := DrmEncoder.init_with_crtcs c t cs
    (r.1.id, r.2)
  | .connector s ms es =>
    let r := DrmConnector.init_with_encoder c s ms es
    (r.1.id, r.2)
  | .framebuffer w h p b g => c.create_framebuffer w h p b g

/-- Run a sequence of creations, collecting the returned ids in order. -/
def runCreations (c : DrmModeConfig) : List CreateOp → List Nat × DrmModeConfig
  | [] => ([], c)
  | op :: rest =>
    let r := applyCreate c op
    let rr := runCreations r.2 rest
    (r.1 :: rr.1, rr.2)

/-- Run `n` issuances of the independent property-id counter. -/
def runPropIssues (c : DrmModeConfig) : Nat → List Nat × DrmModeConfig
  | 0 => ([], c)
  | n + 1 =>
    let r := c.next_prop_id
    let rr := runPropIssues r.2 n
    (r.1 :: rr.1, rr.2)

theorem applyCreate_id (c : DrmModeConfig) (op : CreateOp) :
    (applyCreate c op).1 = c.nextObjectIdCtr % U32M ∧
    (applyCreate c op).2.nextObjectIdCtr =
      (c.nextObjectIdCtr % U32M + 1) % U32M ∧
    (applyCreate c op).2.nextPropIdCtr = c.nextPropIdCtr := by
  cases op <;>
    simp [applyCreate, DrmPlane.init, DrmCrtc.init_with_planes,
      DrmEncoder.init_with_crtcs, DrmConnector.init_with_encoder,
      DrmModeConfig.create_framebuffer, DrmModeConfig.next_object_id]

theorem runCreations_ids :
    ∀ (ops : List CreateOp) (c : DrmModeConfig),
      (runCreations c ops).1 =
        (List.range ops.length).map (fun k => (c.nextObjectIdCtr + k) % U32M)
  | [], c => by simp [runCreations]
  | op :: rest, c => by
    have h := applyCreate_id c op
    have ih := runCreations_ids rest (applyCreate c op).2
    show (applyCreate c op).1 :: (runCreations (applyCreate c op).2 rest).1 = _
    rw [h.1, ih, List.length_cons, List.range_succ_eq_map, List.map_cons,
      List.map_map]
    congr 1
    refine List.map_congr_left ?_
    intro k _
    rw [h.2.1]
    simp only [Function.comp_apply, U32M]
    omega

theorem runCreations_prop_ctr :
    ∀ (ops : List CreateOp) (c : DrmModeConfig),
      (runCreations c ops).2.nextPropIdCtr = c.nextPropIdCtr
  | [], _ => rfl
  | op :: rest, c => by
    have h := applyCreate_id c op
    have ih := runCreations_prop_ctr rest (applyCreate c op).2
    simp [runCreations, ih, h.2.2]

theorem runPropIssues_ids :
    ∀ (n : Nat) (c : DrmModeConfig),
      (runPropIssues c n).1 =
        (List.range n).map (fun k => (c.nextPropIdCtr + k) % U32M)
  | 0, c => by simp [runPropIssues]
  | n + 1, c => by
    have ih := runPropIssues_ids n (c.next_prop_id).2
    show (c.next_prop_id).1 :: (runPropIssues (c.next_prop_id).2 n).1 = _
    rw [ih, List.range_succ_eq_map, List.map_cons, List.map_map]
    congr 1
    refine List.map_congr_left ?_
    intro k _
    simp only [Function.comp_apply, DrmModeConfig.next_prop_id, U32M]
    omega

/-- C8 counterexample: with `2^32 + 1` creations on one registry the
32-bit object-id counter wraps: the first and the last returned ids are
both 0, so the id sequence is neither strictly increasing nor free of
repeats; likewise the `2^32`-th issued property id is 0, so not every
issued property id is greater than zero. -/
theorem object_id_wraparound :
    let ids := (runCreations DrmModeConfig.default
      (List.replicate (U32M + 1) (.plane .Primary))).1
    let pids := (runPropIssues DrmModeConfig.default U32M).1
    ¬ List.Pairwise (· < ·) ids ∧
    ¬ ids.Nodup ∧
    (0 : Nat) ∈ pids ∧ ¬ (∀ i ∈ pids, 0 < i) := by
  intro ids pids
  have hids : ids =
      ((List.range U32M).map (fun k => (0 + k) % U32M)) ++
        [(0 + U32M) % U32M] := by
    show (runCreations _ _).1 = _
    rw [runCreations_ids]
    rw [List.length_replicate, List.range_succ, List.map_append]
    simp [DrmModeConfig.default]
  have h0mem : (0 : Nat) ∈ (List.range U32M).map (fun k => (0 + k) % U32M) :=
    List.mem_map.mpr ⟨0, List.mem_range.mpr (by simp [U32M]), by simp⟩
  have hlast : (0 + U32M) % U32M = 0 := by
    simp [Nat.mod_self]
  have hnp : ¬ List.Pairwise (· < ·) ids := by
    intro hp
    rw [hids] at hp
    rcases List.pairwise_append.mp hp with ⟨_, _, hcross⟩
    have hlt := hcross 0 h0mem ((0 + U32M) % U32M) (by simp)
    rw [hlast] at hlt
    exact Nat.lt_irrefl 0 hlt
  have hnd : ¬ ids.Nodup := by
    intro hp
    rw [hids] at hp
    rcases List.pairwise_append.mp hp with ⟨_, _, hcross⟩
    have hne := hcross 0 h0mem ((0 + U32M) % U32M) (by simp)
    rw [hlast] at hne
    exact hne rfl
  have hpids : pids = (List.range U32M).map (fun k => (1 + k) % U32M) := by
    show (runPropIssues _ _).1 = _
    rw [runPropIssues_ids]
    simp [DrmModeConfig.default]
  have hmem : (0 : Nat) ∈ pids := by
    rw [hpids]
    refine List.mem_map.mpr ⟨U32M - 1, List.mem_range.mpr (by simp [U32M]), ?_⟩
    simp only [U32M]
  exact ⟨hnp, hnd, hmem, fun hall => Nat.lt_irrefl 0 (hall 0 hmem)⟩

/-- C8 amended: for every sequence of at most `2^32` object creations (any
mix of kinds) on one fresh registry, the returned object ids are strictly
increasing with no repeats; for at most `2^32 - 1` property-id issuances
the property ids are strictly increasing and every issued id is greater
than zero; object creations never touch the property counter (the two
counters are independent); beyond those bounds the 32-bit counters wrap
(see the counterexample). -/
theorem object_and_property_id_monotonicity
    (ops : List CreateOp) (n : Nat)
    (hops : ops.length ≤ U32M) (hn : n ≤ U32M - 1) :
    List.Pairwise (· < ·) (runCreations DrmModeConfig.default ops).1 ∧
    (runCreations DrmModeConfig.default ops).1.Nodup ∧
    List.Pairwise (· < ·) (runPropIssues DrmModeConfig.default n).1 ∧
    (∀ i ∈ (runPropIssues DrmModeConfig.default n).1, 0 < i) ∧
    (runCreations DrmModeConfig.default ops).2.nextPropIdCtr =
      DrmModeConfig.default.nextPropIdCtr := by
  have hids : (runCreations DrmModeConfig.default ops).1 =
      List.range ops.length := by
    rw [runCreations_ids]
    have hcongr : ∀ k ∈ List.range ops.length,
        (DrmModeConfig.default.nextObjectIdCtr + k) % U32M = k := by
      intro k hk
      have hk' : k < U32M := lt_of_lt_of_le (List.mem_range.mp hk) hops
      simp [DrmModeConfig.default, Nat.mod_eq_of_lt hk']
    rw [List.map_congr_left hcongr]
    exact List.map_id _
  have hpids : (runPropIssues DrmModeConfig.default n).1 =
      (List.range n).map (fun k => 1 + k) := by
    rw [runPropIssues_ids]
    refine List.map_congr_left ?_
    intro k hk
    have hk' : 1 + k < U32M := by
      have := List.mem_range.mp hk
      simp only [U32M] at *
      omega
    simp [DrmModeConfig.default, Nat.mod_eq_of_lt hk']
  refine ⟨?_, ?_, ?_, ?_, ?_⟩
  · rw [hids]; exact List.pairwise_lt_range _
  · rw [hids]; exact List.nodup_range _
  · rw [hpids]
    refine List.pairwise_map.mpr ?_
    exact (List.pairwise_lt_range n).imp (by omega)
  · rw [hpids]
    intro i hi
    rcases List.mem_map.mp hi with ⟨k, _, hk⟩
    omega
  · exact runCreations_prop_ctr ops DrmModeConfig.default

/-- C8 amended witness: three mixed creations plus two property ids. -/
theorem object_and_property_id_monotonicity_witness :
    ([CreateOp.plane .Primary, CreateOp.framebuffer 1 1 1 1 gemOk,
        CreateOp.plane .Cursor] : List CreateOp).length ≤ U32M ∧
    List.Pairwise (· < ·)
      (runCreations DrmModeConfig.default
        [CreateOp.plane .Primary, CreateOp.framebuffer 1 1 1 1 gemOk,
         CreateOp.plane .Cursor]).1 :=
  ⟨by simp [U32M],
   (object_and_property_id_monotonicity
      [CreateOp.plane .Primary, CreateOp.framebuffer 1 1 1 1 gemOk,
       CreateOp.plane .Cursor] 2 (by simp [U32M]) (by simp [U32M])).1⟩

def rangeProp : DrmProperty := DrmProperty.create_range "range" 0 0 1

def enumProp : DrmProperty :=
  DrmProperty.create_enum "enum" 0 [(0, "off"), (1, "on")]

/-- A registry whose property store holds a Range property (id 1) with
min 0, max 1 and an Enum property (id 2) with entries (0,"off"),(1,"on"). -/
def stProps : SysState :=
  ⟨DrmFileState.new,
   DrmDeviceState.fresh
     { DrmModeConfig.default with properties := [(1, rangeProp), (2, enumProp)] }⟩

/-- C6 witness: the Range/Enum properties of the spec's round-trip test. -/
theorem property_counts_and_fill_witness :
    stProps.dev.mode_config.get_properties 1 =
      some (DrmProperty.create_range "range" 0 0 1) ∧
    (DrmProperty.create_range "range" 0 0 1).count_values = 2 :=
  ⟨rfl,
   (property_counts_and_fill "range" "enum" 0 0 0 1 [(0, "off"), (1, "on")]
      memfdDev env0 stProps 1 2 100 200 2 0 2 2 (by decide) (by decide) rfl rfl
      (by decide) (by decide) (by decide) (by decide)).1⟩

end Drm
